import Mathlib

/-!
# Envoy configuration synthesis of the Kuma control plane

A shallow embedding of `pkg/xds/envoy/envoy.go` and of the identity resolver
exercised by `pkg/sds/auth/common/identity_test.go`.

Conventions of the embedding:

* a Go `string` is a `String`, a `uint32` is a `Nat`, a `[]byte` is a `List Nat`;
* a Go slice is a `List` (a nil slice and an empty slice are both `[]`: the
  program only ever takes `len`, ranges and appends);
* a Go pointer that the program may leave nil is an `Option`;
* a Go `map[string]V` is a `GoMap V`, an association list with pairwise
  distinct keys (a nil map and an empty map are both `∅`);
* a protobuf `oneof` is an inductive type with one constructor per alternative;
* of the Envoy message types only the fields this program writes, or that a
  neighbouring alternative needs in order to be distinguishable, are kept;
  every field left out keeps its zero value in the program.
-/

/-- Go `map[string]V`. -/
abbrev GoMap (V : Type) := AList (fun _ : String => V)

namespace GoMap

/-- Go `len(m)`. -/
def len {V : Type} (m : GoMap V) : Nat := m.entries.length

/-- Go `m[key]` for a string-valued map: the zero value `""` when the key is absent. -/
def index (m : GoMap String) (key : String) : String := (m.lookup key).getD ""

/-- One pass of `for key, value := range m { acc = body acc key value }`, visiting the
entries in the order `order`. -/
def rangeOver {V A : Type} (order : List (Sigma fun _ : String => V))
    (body : A → String → V → A) (init : A) : A :=
  order.foldl (fun acc e => body acc e.1 e.2) init

end GoMap

/-! ## `github.com/golang/protobuf/ptypes/struct` -/

namespace pstruct

/-- The `Kind` oneof of `structpb.Value` (the scalar alternatives). -/
inductive Value_Kind where
  | NullValue
  | StringValue (s : String)
  | BoolValue (b : Bool)
  deriving DecidableEq, Repr

/-- Mirrors `structpb.Value`. -/
structure Value where
  Kind : Value_Kind
  deriving DecidableEq, Repr

/-- Mirrors `structpb.Struct`. -/
structure Struct where
  Fields : GoMap Value
  deriving DecidableEq

end pstruct

/-! ## `envoy/api/v2/core` (addresses, metadata, data sources) -/

namespace envoy_core

/-- Mirrors `core.SocketAddress_Protocol`. -/
inductive SocketAddress_Protocol where
  | TCP
  | UDP
  deriving DecidableEq, Repr

/-- The `PortSpecifier` oneof of `core.SocketAddress`. -/
inductive SocketAddress_PortSpecifier where
  | PortValue (v : Nat)
  | NamedPort (n : String)
  deriving DecidableEq, Repr

/-- Mirrors `core.SocketAddress`. -/
structure SocketAddress where
  Protocol : SocketAddress_Protocol
  Address : String
  PortSpecifier : SocketAddress_PortSpecifier
  deriving DecidableEq, Repr

/-- The `Address` oneof of `core.Address`. -/
inductive Address where
  | SocketAddress (a : envoy_core.SocketAddress)
  | Pipe (path : String)
  deriving DecidableEq, Repr

/-- Mirrors `core.Metadata`. -/
structure Metadata where
  FilterMetadata : GoMap pstruct.Struct
  deriving DecidableEq

/-- The `Specifier` oneof of `core.DataSource`. -/
inductive DataSource where
  | Filename (name : String)
  | InlineBytes (bytes : List Nat)
  | InlineString (s : String)
  deriving DecidableEq, Repr

end envoy_core

/-! ## `envoy/api/v2/endpoint` and `v2.ClusterLoadAssignment` -/

namespace envoy_endpoint

/-- Mirrors `endpoint.Endpoint`. -/
structure Endpoint where
  Address : envoy_core.Address
  deriving DecidableEq, Repr

/-- The `HostIdentifier` oneof of `endpoint.LbEndpoint`. -/
inductive LbEndpoint_HostIdentifier where
  | Endpoint (e : envoy_endpoint.Endpoint)
  | EndpointName (n : String)
  deriving DecidableEq, Repr

/-- Mirrors `endpoint.LbEndpoint`. -/
structure LbEndpoint where
  HostIdentifier : LbEndpoint_HostIdentifier
  Metadata : Option envoy_core.Metadata := none
  deriving DecidableEq

/-- Mirrors `endpoint.LocalityLbEndpoints`. -/
structure LocalityLbEndpoints where
  LbEndpoints : List LbEndpoint
  deriving DecidableEq

end envoy_endpoint

namespace v2

/-- Mirrors `v2.ClusterLoadAssignment`. -/
structure ClusterLoadAssignment where
  ClusterName : String
  Endpoints : List envoy_endpoint.LocalityLbEndpoints
  deriving DecidableEq

end v2

/-! ## `pkg/core/xds` -/

namespace core_xds

/-- Modelled from the spec: the declaration of `core_xds.Endpoint` is not among the
sources; the spec gives it as `{Target (host), Port, Tags}`. -/
structure Endpoint where
  Target : String
  Port : Nat
  Tags : GoMap String

/-- Modelled from the spec: the declaration of `core_xds.DataplaneMetadata` is not among
the sources; it "carries the local path to a bootstrap identity token file". -/
structure DataplaneMetadata where
  DataplaneTokenPath : String
  deriving DecidableEq, Repr

/-- Modelled from the spec: the nil-safe getter `GetDataplaneTokenPath` is not among the
sources; "absence means no call credentials are attached", so an absent metadata has the
empty path. -/
def DataplaneMetadata.GetDataplaneTokenPath : Option DataplaneMetadata → String
  | none => ""
  | some m => m.DataplaneTokenPath

end core_xds

/-! ## `api/mesh/v1alpha1`, `pkg/core/resources/apis/mesh`, `pkg/xds/context` -/

namespace mesh_proto

/-- Modelled from the spec: the generated message `Mesh.Mtls` is not among the sources; the
spec gives the mesh "a boolean-equivalent mTLS-enabled flag". -/
structure Mesh_Mtls where
  Enabled : Bool
  deriving DecidableEq, Repr

/-- Modelled from the spec: the nil-safe generated getter `GetEnabled`. -/
def Mesh_Mtls.GetEnabled : Option Mesh_Mtls → Bool
  | none => false
  | some m => m.Enabled

/-- Modelled from the spec: the generated message `Mesh`, of which only the mTLS setting
is read here. -/
structure Mesh where
  Mtls : Option Mesh_Mtls
  deriving DecidableEq, Repr

/-- Modelled from the spec: the generated getter `GetMtls`. -/
def Mesh.GetMtls (m : Mesh) : Option Mesh_Mtls := m.Mtls

end mesh_proto

namespace mesh_core

/-- Modelled from the spec: `MeshResource`, the stored mesh, of which the program reads
`Spec`. -/
structure MeshResource where
  Spec : mesh_proto.Mesh
  deriving DecidableEq, Repr

end mesh_core

namespace xds_context

/-- Modelled from the spec: `ControlPlaneContext` is not among the sources; the spec lists
the "ControlPlane endpoint location for secret discovery" and the "ControlPlane CA
certificate bytes". -/
structure ControlPlaneContext where
  SdsLocation : String
  SdsTlsCert : List Nat
  deriving DecidableEq, Repr

/-- Modelled from the spec: `MeshContext`, the mesh of the synthesis pass. -/
structure MeshContext where
  Resource : mesh_core.MeshResource
  deriving DecidableEq, Repr

/-- Modelled from the spec: `Context` (SynthesisContext), an immutable bundle built once per
pass; its parts are always present. -/
structure Context where
  ControlPlane : ControlPlaneContext
  Mesh : MeshContext
  deriving DecidableEq, Repr

end xds_context

/-! ## `pkg/sds/server` -/

/-- Modelled from the spec: the two well-known SDS secret names `server.MeshCaResource` and
`server.IdentityCertResource` are constants of a package that is not among the sources;
the program is embedded for any value of them. -/
structure SdsServerNames where
  MeshCaResource : String
  IdentityCertResource : String
  deriving DecidableEq, Repr

/-! ## `envoy/config/grpc_credential/v2alpha`, access logs, TCP proxy -/

namespace envoy_grpc_credential

/-- Mirrors `v2alpha.FileBasedMetadataConfig`. -/
structure FileBasedMetadataConfig where
  SecretData : Option envoy_core.DataSource := none
  HeaderKey : String := ""
  HeaderPrefix : String := ""
  deriving DecidableEq, Repr

end envoy_grpc_credential

namespace filter_accesslog

/-- Mirrors `accesslog.AccessLog`: a named sink with its serialized configuration. The
program never looks inside one; it only stores what `convertLoggingBackend` built. -/
structure AccessLog where
  Name : String
  TypeUrl : String
  Value : List Nat
  deriving DecidableEq, Repr

end filter_accesslog

namespace envoy_tcp

/-- Mirrors `tcp_proxy.TcpProxy_WeightedCluster_ClusterWeight`. -/
structure TcpProxy_WeightedCluster_ClusterWeight where
  Name : String
  Weight : Nat
  deriving DecidableEq, Repr

/-- Mirrors `tcp_proxy.TcpProxy_WeightedCluster`. -/
structure TcpProxy_WeightedCluster where
  Clusters : List TcpProxy_WeightedCluster_ClusterWeight
  deriving DecidableEq, Repr

/-- The `ClusterSpecifier` oneof of `tcp_proxy.TcpProxy`. -/
inductive TcpProxy_ClusterSpecifier where
  | Cluster (name : String)
  | WeightedClusters (w : TcpProxy_WeightedCluster)
  deriving DecidableEq, Repr

/-- Mirrors `tcp_proxy.TcpProxy`. -/
structure TcpProxy where
  StatPrefix : String
  ClusterSpecifier : TcpProxy_ClusterSpecifier
  AccessLog : List filter_accesslog.AccessLog := []
  deriving DecidableEq, Repr

end envoy_tcp

/-! ## Routes and the HTTP connection manager -/

namespace envoy_route

/-- The `PathSpecifier` oneof of `route.RouteMatch`. -/
inductive RouteMatch_PathSpecifier where
  | Prefix (p : String)
  | Path (p : String)
  | Regex (r : String)
  deriving DecidableEq, Repr

/-- Mirrors `route.RouteMatch`. -/
structure RouteMatch where
  PathSpecifier : RouteMatch_PathSpecifier
  deriving DecidableEq, Repr

/-- The `ClusterSpecifier` oneof of `route.RouteAction`. -/
inductive RouteAction_ClusterSpecifier where
  | Cluster (name : String)
  | ClusterHeader (header : String)
  deriving DecidableEq, Repr

/-- Mirrors `route.RouteAction`. -/
structure RouteAction where
  ClusterSpecifier : RouteAction_ClusterSpecifier
  PrefixRewrite : String := ""
  deriving DecidableEq, Repr

/-- The `Action` oneof of `route.Route`. -/
inductive Route_Action where
  | Route (r : RouteAction)
  | Redirect (host : String)
  deriving DecidableEq, Repr

/-- Mirrors `route.Route`. -/
structure Route where
  Match : RouteMatch
  Action : Route_Action
  deriving DecidableEq, Repr

/-- Mirrors `route.VirtualHost`. -/
structure VirtualHost where
  Name : String
  Domains : List String
  Routes : List Route
  deriving DecidableEq, Repr

end envoy_route

namespace v2

/-- Mirrors `v2.RouteConfiguration`. -/
structure RouteConfiguration where
  VirtualHosts : List envoy_route.VirtualHost
  deriving DecidableEq, Repr

end v2

namespace envoy_hcm

/-- Mirrors `http_connection_manager.HttpConnectionManager_CodecType`. -/
inductive HttpConnectionManager_CodecType where
  | AUTO
  | HTTP1
  | HTTP2
  deriving DecidableEq, Repr

/-- Mirrors `http_connection_manager.HttpFilter`. -/
structure HttpFilter where
  Name : String
  deriving DecidableEq, Repr

/-- The `RouteSpecifier` oneof of `http_connection_manager.HttpConnectionManager`. -/
inductive HttpConnectionManager_RouteSpecifier where
  | RouteConfig (c : v2.RouteConfiguration)
  | Rds (routeConfigName : String)
  deriving DecidableEq, Repr

/-- Mirrors `http_connection_manager.HttpConnectionManager`. -/
structure HttpConnectionManager where
  StatPrefix : String
  CodecType : HttpConnectionManager_CodecType
  HttpFilters : List HttpFilter
  RouteSpecifier : HttpConnectionManager_RouteSpecifier
  deriving DecidableEq, Repr

end envoy_hcm

/-! ## `ptypes.MarshalAny` -/

namespace ptypes

/-- A `google.protobuf.Any`. The wire form (type URL and serialized bytes) of a message
this program marshals is determined by the message, so such an `Any` is kept as the
message it wraps, one constructor per message type; `Raw` is an `Any` that was
marshalled by code outside this file. -/
inductive Any where
  | TcpProxy (m : envoy_tcp.TcpProxy)
  | HttpConnectionManager (m : envoy_hcm.HttpConnectionManager)
  | FileBasedMetadataConfig (m : envoy_grpc_credential.FileBasedMetadataConfig)
  | Raw (TypeUrl : String) (Value : List Nat)
  deriving DecidableEq, Repr

end ptypes

/-! ## gRPC services, SDS secret configs and TLS contexts -/

namespace envoy_core

/-- Mirrors `core.GrpcService_GoogleGrpc_SslCredentials`. -/
structure GrpcService_GoogleGrpc_SslCredentials where
  RootCerts : Option DataSource := none
  PrivateKey : Option DataSource := none
  CertChain : Option DataSource := none
  deriving DecidableEq, Repr

/-- The `CredentialSpecifier` oneof of `core.GrpcService_GoogleGrpc_ChannelCredentials`. -/
inductive GrpcService_GoogleGrpc_ChannelCredentials where
  | SslCredentials (c : GrpcService_GoogleGrpc_SslCredentials)
  | GoogleDefault
  | LocalCredentials
  deriving DecidableEq, Repr

/-- Mirrors `core.GrpcService_GoogleGrpc_CallCredentials_MetadataCredentialsFromPlugin`,
whose config is always given as a typed config here. -/
structure GrpcService_GoogleGrpc_CallCredentials_MetadataCredentialsFromPlugin where
  Name : String
  TypedConfig : ptypes.Any
  deriving DecidableEq, Repr

/-- The `CredentialSpecifier` oneof of `core.GrpcService_GoogleGrpc_CallCredentials`. -/
inductive GrpcService_GoogleGrpc_CallCredentials where
  | AccessToken (token : String)
  | GoogleComputeEngine
  | FromPlugin (p : GrpcService_GoogleGrpc_CallCredentials_MetadataCredentialsFromPlugin)
  deriving DecidableEq, Repr

/-- Mirrors `core.GrpcService_GoogleGrpc`. -/
structure GrpcService_GoogleGrpc where
  TargetUri : String
  ChannelCredentials : Option GrpcService_GoogleGrpc_ChannelCredentials := none
  CallCredentials : List GrpcService_GoogleGrpc_CallCredentials := []
  StatPrefix : String := ""
  CredentialsFactoryName : String := ""
  deriving DecidableEq, Repr

/-- The `TargetSpecifier` oneof of `core.GrpcService`. -/
inductive GrpcService where
  | EnvoyGrpc (clusterName : String)
  | GoogleGrpc (g : GrpcService_GoogleGrpc)
  deriving DecidableEq, Repr

/-- Mirrors `core.ApiConfigSource_ApiType`. -/
inductive ApiConfigSource_ApiType where
  | UNSUPPORTED_REST_LEGACY
  | REST
  | GRPC
  deriving DecidableEq, Repr

/-- Mirrors `core.ApiConfigSource`. -/
structure ApiConfigSource where
  ApiType : ApiConfigSource_ApiType
  GrpcServices : List GrpcService
  deriving DecidableEq, Repr

/-- The `ConfigSourceSpecifier` oneof of `core.ConfigSource`. -/
inductive ConfigSource where
  | Path (path : String)
  | ApiConfigSource (a : envoy_core.ApiConfigSource)
  | Ads
  deriving DecidableEq, Repr

end envoy_core

namespace envoy_auth

/-- Mirrors `auth.SdsSecretConfig`. -/
structure SdsSecretConfig where
  Name : String
  SdsConfig : Option envoy_core.ConfigSource
  deriving DecidableEq, Repr

/-- The `ValidationContextType` oneof of `auth.CommonTlsContext`: a static validation
context (kept as its trusted CA) or one fetched over SDS. -/
inductive CommonTlsContext_ValidationContextType where
  | ValidationContext (TrustedCa : Option envoy_core.DataSource)
  | ValidationContextSdsSecretConfig (c : SdsSecretConfig)
  deriving DecidableEq, Repr

/-- Mirrors `auth.TlsCertificate`, a certificate given statically. -/
structure TlsCertificate where
  CertificateChain : Option envoy_core.DataSource
  PrivateKey : Option envoy_core.DataSource
  deriving DecidableEq, Repr

/-- Mirrors `auth.CommonTlsContext`. -/
structure CommonTlsContext where
  ValidationContextType : Option CommonTlsContext_ValidationContextType := none
  TlsCertificateSdsSecretConfigs : List SdsSecretConfig := []
  TlsCertificates : List TlsCertificate := []
  AlpnProtocols : List String := []
  deriving DecidableEq, Repr

/-- Mirrors `auth.DownstreamTlsContext`. -/
structure DownstreamTlsContext where
  CommonTlsContext : Option envoy_auth.CommonTlsContext := none
  RequireClientCertificate : Option Bool := none
  RequireSni : Option Bool := none
  deriving DecidableEq, Repr

/-- Mirrors `auth.UpstreamTlsContext`. -/
structure UpstreamTlsContext where
  CommonTlsContext : Option envoy_auth.CommonTlsContext := none
  Sni : String := ""
  AllowRenegotiation : Bool := false
  MaxSessionKeys : Option Nat := none
  deriving DecidableEq, Repr

end envoy_auth

/-! ## Listeners -/

namespace envoy_listener

/-- Mirrors `listener.Filter`, whose config is always given as a typed config here. -/
structure Filter where
  Name : String
  TypedConfig : ptypes.Any
  deriving DecidableEq, Repr

/-- Mirrors `listener.FilterChain`. -/
structure FilterChain where
  TlsContext : Option envoy_auth.DownstreamTlsContext := none
  Filters : List Filter
  deriving DecidableEq, Repr

end envoy_listener

namespace v2

/-- Mirrors `v2.Listener_DeprecatedV1`. -/
structure Listener_DeprecatedV1 where
  BindToPort : Option Bool
  deriving DecidableEq, Repr

/-- Mirrors `v2.Listener`. -/
structure Listener where
  Name : String
  Address : envoy_core.Address
  FilterChains : List envoy_listener.FilterChain
  UseOriginalDst : Option Bool := none
  DeprecatedV1 : Option Listener_DeprecatedV1 := none
  deriving DecidableEq, Repr

end v2

/-! ## Durations -/

namespace time

/-- Go `time.Duration`: a count of nanoseconds. -/
abbrev Duration := Int

/-- Mirrors `time.Second`. -/
def Second : Duration := 1000000000

end time

namespace ptypes

/-- Mirrors `duration.Duration`, the protobuf duration. -/
structure Duration where
  Seconds : Int
  Nanos : Int
  deriving DecidableEq, Repr

/-- Mirrors `ptypes.DurationProto`: whole seconds (Go integer division truncates) and the
remaining nanoseconds. -/
def DurationProto (d : time.Duration) : Duration :=
  let nanos := d
  let secs := Int.tdiv nanos 1000000000
  let nanos := nanos - secs * 1000000000
  { Seconds := secs, Nanos := nanos }

end ptypes

/-! ## Health checks, outlier detection and clusters -/

namespace envoy_core

/-- The `Payload` oneof of `core.HealthCheck_Payload`. -/
inductive HealthCheck_Payload where
  | Text (t : String)
  | Binary (b : List Nat)
  deriving DecidableEq, Repr

/-- Mirrors `core.HealthCheck_TcpHealthCheck`. -/
structure HealthCheck_TcpHealthCheck where
  Send : Option HealthCheck_Payload := none
  Receive : List HealthCheck_Payload := []
  deriving DecidableEq, Repr

/-- The `HealthChecker` oneof of `core.HealthCheck`. -/
inductive HealthCheck_HealthChecker where
  | HttpHealthCheck (path : String)
  | TcpHealthCheck (c : HealthCheck_TcpHealthCheck)
  | GrpcHealthCheck (serviceName : String)
  deriving DecidableEq, Repr

/-- Mirrors `core.HealthCheck`; the thresholds are `*wrappers.UInt32Value`. -/
structure HealthCheck where
  Timeout : Option ptypes.Duration
  Interval : Option ptypes.Duration
  UnhealthyThreshold : Option Nat
  HealthyThreshold : Option Nat
  HealthChecker : HealthCheck_HealthChecker
  deriving DecidableEq, Repr

end envoy_core

namespace envoy_cluster

/-- Mirrors `cluster.OutlierDetection`. -/
structure OutlierDetection where
  Consecutive_5Xx : Option Nat := none
  Interval : Option ptypes.Duration := none
  BaseEjectionTime : Option ptypes.Duration := none
  MaxEjectionPercent : Option Nat := none
  deriving DecidableEq, Repr

end envoy_cluster

namespace v2

/-- Mirrors `v2.Cluster_DiscoveryType`. -/
inductive Cluster_DiscoveryType where
  | STATIC
  | STRICT_DNS
  | LOGICAL_DNS
  | EDS
  | ORIGINAL_DST
  deriving DecidableEq, Repr

/-- Mirrors `v2.Cluster_LbPolicy`; `ROUND_ROBIN` is the zero value. -/
inductive Cluster_LbPolicy where
  | ROUND_ROBIN
  | LEAST_REQUEST
  | RING_HASH
  | RANDOM
  | ORIGINAL_DST_LB
  | MAGLEV
  deriving DecidableEq, Repr

/-- The `ClusterDiscoveryType` oneof of `v2.Cluster`. -/
inductive Cluster_ClusterDiscoveryType where
  | Type (t : Cluster_DiscoveryType)
  | ClusterType (name : String)
  deriving DecidableEq, Repr

/-- Mirrors `v2.Cluster_EdsClusterConfig`. -/
structure Cluster_EdsClusterConfig where
  EdsConfig : Option envoy_core.ConfigSource := none
  ServiceName : String := ""
  deriving DecidableEq, Repr

/-- Mirrors `v2.Cluster`. -/
structure Cluster where
  Name : String
  ConnectTimeout : Option ptypes.Duration := none
  ClusterDiscoveryType : Option Cluster_ClusterDiscoveryType := none
  EdsClusterConfig : Option Cluster_EdsClusterConfig := none
  LbPolicy : Cluster_LbPolicy := .ROUND_ROBIN
  LoadAssignment : Option ClusterLoadAssignment := none
  HealthChecks : List envoy_core.HealthCheck := []
  TlsContext : Option envoy_auth.UpstreamTlsContext := none
  OutlierDetection : Option envoy_cluster.OutlierDetection := none
  deriving DecidableEq

end v2

/-! ## Health-check policies (`api/mesh/v1alpha1`, `pkg/core/resources/apis/mesh`) -/

namespace mesh_proto

/-- Modelled from the spec: the generated message of the active checks is not among the
sources; the spec gives `{Interval, Timeout, UnhealthyThreshold, HealthyThreshold}`. The
program copies the two durations as they are and wraps the two thresholds. -/
structure HealthCheck_Conf_Active where
  Interval : Option ptypes.Duration
  Timeout : Option ptypes.Duration
  UnhealthyThreshold : Nat
  HealthyThreshold : Nat
  deriving DecidableEq, Repr

/-- Modelled from the spec: the generated message of the passive checks, given as
`{PenaltyInterval, UnhealthyThreshold}`. -/
structure HealthCheck_Conf_Passive where
  UnhealthyThreshold : Nat
  PenaltyInterval : Option ptypes.Duration
  deriving DecidableEq, Repr

/-- Modelled from the spec: the policy exposes "optional ActiveChecks" and "optional
PassiveChecks". -/
structure HealthCheck_Conf where
  ActiveChecks : Option HealthCheck_Conf_Active := none
  PassiveChecks : Option HealthCheck_Conf_Passive := none
  deriving DecidableEq, Repr

/-- Modelled from the spec: the nil-safe generated getter `GetActiveChecks`. -/
def HealthCheck_Conf.GetActiveChecks : Option HealthCheck_Conf → Option HealthCheck_Conf_Active
  | none => none
  | some conf => conf.ActiveChecks

/-- Modelled from the spec: the nil-safe generated getter `GetPassiveChecks`. -/
def HealthCheck_Conf.GetPassiveChecks : Option HealthCheck_Conf → Option HealthCheck_Conf_Passive
  | none => none
  | some conf => conf.PassiveChecks

/-- Modelled from the spec: the generated message `HealthCheck`, of which the program reads
`Conf`. -/
structure HealthCheck where
  Conf : Option HealthCheck_Conf := none
  deriving DecidableEq, Repr

end mesh_proto

namespace mesh_core

/-- Modelled from the spec: `HealthCheckResource`, the stored policy, of which the program
reads `Spec`. -/
structure HealthCheckResource where
  Spec : mesh_proto.HealthCheck
  deriving DecidableEq, Repr

/-- Modelled from the spec: `HasActiveChecks` is not among the sources; the active checks
are "present" when the policy carries them. -/
def HealthCheckResource.HasActiveChecks (r : HealthCheckResource) : Bool :=
  (mesh_proto.HealthCheck_Conf.GetActiveChecks r.Spec.Conf).isSome

/-- Modelled from the spec: `HasPassiveChecks` is not among the sources; the passive
checks are "present" when the policy carries them. -/
def HealthCheckResource.HasPassiveChecks (r : HealthCheckResource) : Bool :=
  (mesh_proto.HealthCheck_Conf.GetPassiveChecks r.Spec.Conf).isSome

end mesh_core

/-! ## `go-control-plane/pkg/wellknown` -/

namespace wellknown

/-- Mirrors `wellknown.TCPProxy`. -/
def TCPProxy : String := "envoy.tcp_proxy"

/-- Mirrors `wellknown.HTTPConnectionManager`. -/
def HTTPConnectionManager : String := "envoy.http_connection_manager"

/-- Mirrors `wellknown.Router`. -/
def Router : String := "envoy.router"

end wellknown

/-! ## Dataplanes and identity resolution (`pkg/sds/auth/common`) -/

namespace mesh_proto

/-- Mirrors `Dataplane_Networking_Inbound` as the identity test builds it. -/
structure Dataplane_Networking_Inbound where
  Interface : String
  Tags : GoMap String

/-- Mirrors `Dataplane_Networking_Gateway` as the identity test builds it. -/
structure Dataplane_Networking_Gateway where
  Tags : GoMap String

/-- Mirrors `Dataplane_Networking`. -/
structure Dataplane_Networking where
  Inbound : List Dataplane_Networking_Inbound := []
  Gateway : Option Dataplane_Networking_Gateway := none

/-- Mirrors `Dataplane`. -/
structure Dataplane where
  Networking : Option Dataplane_Networking := none

end mesh_proto

namespace model

/-- Mirrors the test `ResourceMeta`. -/
structure ResourceMeta where
  Mesh : String
  Name : String
  deriving DecidableEq, Repr

end model

namespace core_mesh

/-- Mirrors `DataplaneResource`. -/
structure DataplaneResource where
  Meta : model.ResourceMeta
  Spec : mesh_proto.Dataplane

end core_mesh

namespace sds_auth

/-- Mirrors `Identity`. -/
structure Identity where
  Mesh : String
  Service : String
  deriving DecidableEq, Repr

end sds_auth

namespace auth_common

/-- The error of a dataplane without services, as the identity test matches it. -/
def NoServiceAssociated : String := "Dataplane has no services associated with it"

/-- The declared inbound interfaces of a dataplane (none without a networking section). -/
def inbounds (dataplane : core_mesh.DataplaneResource) :
    List mesh_proto.Dataplane_Networking_Inbound :=
  match dataplane.Spec.Networking with
  | none => []
  | some networking => networking.Inbound

/-- The declared gateway of a dataplane, if any. -/
def gateway (dataplane : core_mesh.DataplaneResource) :
    Option mesh_proto.Dataplane_Networking_Gateway :=
  match dataplane.Spec.Networking with
  | none => none
  | some networking => networking.Gateway

/-- Modelled from the spec: `GetDataplaneIdentity` (ResolveIdentity) is not among the
sources, only its test is. "If the dataplane declares any Inbound interfaces, take the
`service` tag of the first Inbound (ordering as declared) as the Service component.
Otherwise, if a Gateway is declared, use its `service` tag. If neither exists, fail with a
`NoServiceAssociated` error. Mesh component is copied from the dataplane's owning mesh
name." -/
def GetDataplaneIdentity (dataplane : core_mesh.DataplaneResource) :
    Except String sds_auth.Identity :=
  match inbounds dataplane with
  | first :: _ =>
    .ok { Mesh := dataplane.Meta.Mesh, Service := first.Tags.index "service" }
  | [] =>
    match gateway dataplane with
    | some gw => .ok { Mesh := dataplane.Meta.Mesh, Service := gw.Tags.index "service" }
    | none => .error NoServiceAssociated

end auth_common

/-! ## `pkg/xds/envoy/envoy.go`: endpoints -/

namespace envoy

/-- Mirrors `ClusterInfo`. -/
structure ClusterInfo where
  Name : String
  Weight : Nat
  Tags : GoMap String

/-- The socket address literal `{Protocol: TCP, Address: address, PortValue: port}` that
every builder of this file writes out. -/
def tcpSocketAddress (address : String) (port : Nat) : envoy_core.Address :=
  .SocketAddress
    { Protocol := .TCP, Address := address, PortSpecifier := .PortValue port }

/-- Mirrors `CreateStaticEndpoint`. -/
def CreateStaticEndpoint (clusterName : String) (address : String) (port : Nat) :
    v2.ClusterLoadAssignment :=
  { ClusterName := clusterName
    Endpoints := [{ LbEndpoints := [{ HostIdentifier := .Endpoint { Address := tcpSocketAddress address port } }] }] }

/-- The loop of `CreateLbMetadata`, visiting the tags in the order `order`:
`fields[key] = &pstruct.Value{Kind: StringValue{value}}`. -/
def lbFields (order : List (Sigma fun _ : String => String)) : GoMap pstruct.Value :=
  GoMap.rangeOver order
    (fun (fields : GoMap pstruct.Value) key value => fields.insert key { Kind := .StringValue value })
    ∅

/-- Mirrors `CreateLbMetadata`. -/
def CreateLbMetadata (tags : GoMap String) : Option envoy_core.Metadata :=
  if tags.len = 0 then
    none
  else
    let fields := lbFields tags.entries
    some { FilterMetadata := AList.singleton "envoy.lb" { Fields := fields } }

/-- Mirrors `CreateClusterLoadAssignment`. -/
def CreateClusterLoadAssignment (clusterName : String) (endpoints : List core_xds.Endpoint) :
    v2.ClusterLoadAssignment :=
  let lbEndpoints := endpoints.foldl
    (fun (lbEndpoints : List envoy_endpoint.LbEndpoint) ep =>
      lbEndpoints ++ [{ Metadata := CreateLbMetadata ep.Tags
                        HostIdentifier := .Endpoint { Address := tcpSocketAddress ep.Target ep.Port } }])
    []
  { ClusterName := clusterName
    Endpoints := [{ LbEndpoints := lbEndpoints }] }

end envoy

/-! ## `pkg/xds/envoy/envoy.go`: TLS contexts and SDS secret references -/

namespace envoy

/-- The mesh mTLS flag, `ctx.Mesh.Resource.Spec.GetMtls().GetEnabled()`. -/
def mtlsEnabled (ctx : xds_context.Context) : Bool :=
  mesh_proto.Mesh_Mtls.GetEnabled ctx.Mesh.Resource.Spec.GetMtls

/-- The closure `withCallCredentials` of `sdsSecretConfig`: it updates the service it is
given in place and returns it. -/
def withCallCredentials (metadata : Option core_xds.DataplaneMetadata)
    (grpc : envoy_core.GrpcService_GoogleGrpc) : envoy_core.GrpcService_GoogleGrpc :=
  if core_xds.DataplaneMetadata.GetDataplaneTokenPath metadata = "" then
    grpc
  else
    let config : envoy_grpc_credential.FileBasedMetadataConfig :=
      { SecretData := some (.Filename (core_xds.DataplaneMetadata.GetDataplaneTokenPath metadata)) }
    let typedConfig := ptypes.Any.FileBasedMetadataConfig config
    { grpc with
      CallCredentials := grpc.CallCredentials ++
        [.FromPlugin { Name := "envoy.grpc_credentials.file_based_metadata", TypedConfig := typedConfig }]
      CredentialsFactoryName := "envoy.grpc_credentials.file_based_metadata" }

/-- Mirrors `sdsSecretConfig`. -/
def sdsSecretConfig (context : xds_context.Context) (name : String)
    (metadata : Option core_xds.DataplaneMetadata) : envoy_auth.SdsSecretConfig :=
  { Name := name
    SdsConfig := some (.ApiConfigSource
      { ApiType := .GRPC
        GrpcServices := [
          .GoogleGrpc (withCallCredentials metadata
            { TargetUri := context.ControlPlane.SdsLocation
              StatPrefix := "sds_" ++ name
              ChannelCredentials := some (.SslCredentials
                { RootCerts := some (.InlineBytes context.ControlPlane.SdsTlsCert) }) })] }) }

/-- Mirrors `CreateCommonTlsContext`. -/
def CreateCommonTlsContext (server : SdsServerNames) (ctx : xds_context.Context)
    (metadata : Option core_xds.DataplaneMetadata) : envoy_auth.CommonTlsContext :=
  { ValidationContextType := some (.ValidationContextSdsSecretConfig
      (sdsSecretConfig ctx server.MeshCaResource metadata))
    TlsCertificateSdsSecretConfigs := [sdsSecretConfig ctx server.IdentityCertResource metadata] }

/-- Mirrors `CreateDownstreamTlsContext`. -/
def CreateDownstreamTlsContext (server : SdsServerNames) (ctx : xds_context.Context)
    (metadata : Option core_xds.DataplaneMetadata) : Option envoy_auth.DownstreamTlsContext :=
  if !mtlsEnabled ctx then
    none
  else
    some { CommonTlsContext := some (CreateCommonTlsContext server ctx metadata)
           RequireClientCertificate := some true }

/-- Mirrors `CreateUpstreamTlsContext`. -/
def CreateUpstreamTlsContext (server : SdsServerNames) (ctx : xds_context.Context)
    (metadata : Option core_xds.DataplaneMetadata) : Option envoy_auth.UpstreamTlsContext :=
  if !mtlsEnabled ctx then
    none
  else
    some { CommonTlsContext := some (CreateCommonTlsContext server ctx metadata) }

/-! ## `pkg/xds/envoy/envoy.go`: listeners -/

/-- The statement `if virtual { listener.DeprecatedV1 = ...BindToPort: false }` that ends
three of the listener builders. -/
def withVirtual (virtual : Bool) (listener : v2.Listener) : v2.Listener :=
  if virtual then
    { listener with DeprecatedV1 := some { BindToPort := some false } }
  else
    listener

/-- Mirrors `CreateOutboundListener`. The converter `convertLoggingBackend` is a function of
this package that is not among the sources, so it is an argument, together with the types
of the logging backend, of the proxy and of errors; `backend` is the `*LoggingBackend`. -/
def CreateOutboundListener {Backend Proxy Err : Type}
    (convertLoggingBackend : String → String → Backend → Proxy → Except Err filter_accesslog.AccessLog)
    (_ctx : xds_context.Context) (listenerName : String) (address : String) (port : Nat)
    (statsName : String) (clusters : List ClusterInfo) (virtual : Bool) (sourceService : String)
    (destinationService : String) (backend : Option Backend) (proxy : Proxy) :
    Except Err v2.Listener := do
  let accessLogs : List filter_accesslog.AccessLog ←
    match backend with
    | some b =>
      match convertLoggingBackend sourceService destinationService b proxy with
      | .error err => Except.error err
      | .ok accessLog => pure ([] ++ [accessLog])
    | none => pure []
  let clusterSpecifier : envoy_tcp.TcpProxy_ClusterSpecifier :=
    if h : clusters.length = 1 then
      .Cluster (clusters.get ⟨0, by omega⟩).Name
    else
      let weightedClusters := clusters.foldl
        (fun (weightedClusters : List envoy_tcp.TcpProxy_WeightedCluster_ClusterWeight) cluster =>
          weightedClusters ++ [{ Name := cluster.Name, Weight := cluster.Weight }])
        []
      .WeightedClusters { Clusters := weightedClusters }
  let config : envoy_tcp.TcpProxy :=
    { StatPrefix := statsName, AccessLog := accessLogs, ClusterSpecifier := clusterSpecifier }
  let pbst := ptypes.Any.TcpProxy config
  let listener : v2.Listener :=
    { Name := listenerName
      Address := tcpSocketAddress address port
      FilterChains := [{ Filters := [{ Name := wellknown.TCPProxy, TypedConfig := pbst }] }] }
  pure (withVirtual virtual listener)

/-- Mirrors `CreateInboundListener`. The builder `createRbacFilter` is a function of this
package that is not among the sources, so it is an argument, together with the type of
the `*TrafficPermissionResourceList` it consumes. -/
def CreateInboundListener {Permissions : Type}
    (createRbacFilter : String → Permissions → envoy_listener.Filter)
    (server : SdsServerNames) (ctx : xds_context.Context) (listenerName : String)
    (address : String) (port : Nat) (clusterName : String) (virtual : Bool)
    (permissions : Permissions) (metadata : Option core_xds.DataplaneMetadata) : v2.Listener :=
  let config : envoy_tcp.TcpProxy :=
    { StatPrefix := clusterName, ClusterSpecifier := .Cluster clusterName }
  let pbst := ptypes.Any.TcpProxy config
  let chain : envoy_listener.FilterChain :=
    { TlsContext := CreateDownstreamTlsContext server ctx metadata
      Filters := [{ Name := wellknown.TCPProxy, TypedConfig := pbst }] }
  let chain : envoy_listener.FilterChain :=
    if mtlsEnabled ctx then
      let filter := createRbacFilter listenerName permissions
      { chain with Filters := [filter] ++ chain.Filters }
    else
      chain
  let listener : v2.Listener :=
    { Name := listenerName
      Address := tcpSocketAddress address port
      FilterChains := [chain] }
  withVirtual virtual listener

/-- Mirrors `CreatePrometheusListener`. -/
def CreatePrometheusListener (_ctx : xds_context.Context) (listenerName : String)
    (address : String) (port : Nat) (path : String) (clusterName : String) (virtual : Bool)
    (_metadata : Option core_xds.DataplaneMetadata) : v2.Listener :=
  let config : envoy_hcm.HttpConnectionManager :=
    { StatPrefix := listenerName
      CodecType := .AUTO
      HttpFilters := [{ Name := wellknown.Router }]
      RouteSpecifier := .RouteConfig
        { VirtualHosts := [
            { Name := "envoy_admin"
              Domains := ["*"]
              Routes := [
                { Match := { PathSpecifier := .Prefix path }
                  Action := .Route
                    { ClusterSpecifier := .Cluster clusterName
                      PrefixRewrite := "/stats/prometheus" } }] }] } }
  let pbst := ptypes.Any.HttpConnectionManager config
  let listener : v2.Listener :=
    { Name := listenerName
      Address := tcpSocketAddress address port
      FilterChains := [{ Filters := [{ Name := wellknown.HTTPConnectionManager, TypedConfig := pbst }] }] }
  withVirtual virtual listener

/-- Mirrors `CreateCatchAllListener`. -/
def CreateCatchAllListener (_ctx : xds_context.Context) (listenerName : String)
    (address : String) (port : Nat) (clusterName : String) : v2.Listener :=
  let config : envoy_tcp.TcpProxy :=
    { StatPrefix := clusterName, ClusterSpecifier := .Cluster clusterName }
  let pbst := ptypes.Any.TcpProxy config
  { Name := listenerName
    Address := tcpSocketAddress address port
    FilterChains := [{ Filters := [{ Name := wellknown.TCPProxy, TypedConfig := pbst }] }]
    UseOriginalDst := some true }

end envoy

/-! ## `pkg/xds/envoy/envoy.go`: clusters -/

namespace envoy

/-- Mirrors `defaultConnectTimeout`. -/
def defaultConnectTimeout : time.Duration := 5 * time.Second

/-- Mirrors `CreateLocalCluster`. -/
def CreateLocalCluster (clusterName : String) (address : String) (port : Nat) : v2.Cluster :=
  { Name := clusterName
    ConnectTimeout := some (ptypes.DurationProto defaultConnectTimeout)
    ClusterDiscoveryType := some (.Type .STATIC)
    LoadAssignment := some (CreateStaticEndpoint clusterName address port) }

/-- Mirrors `CreateEdsCluster`. -/
def CreateEdsCluster (server : SdsServerNames) (ctx : xds_context.Context)
    (clusterName : String) (metadata : Option core_xds.DataplaneMetadata) : v2.Cluster :=
  { Name := clusterName
    ConnectTimeout := some (ptypes.DurationProto defaultConnectTimeout)
    ClusterDiscoveryType := some (.Type .EDS)
    EdsClusterConfig := some { EdsConfig := some .Ads }
    TlsContext := CreateUpstreamTlsContext server ctx metadata }

/-- Mirrors `ClusterWithHealthChecks`. The Go function updates the cluster it is given in
place and returns it; here it returns the updated cluster. Where the Go code reads the
fields of `GetActiveChecks()` (of `GetPassiveChecks()`), the checks are known to be
present. -/
def ClusterWithHealthChecks (cluster : v2.Cluster)
    (healthCheck : Option mesh_core.HealthCheckResource) : v2.Cluster :=
  match healthCheck with
  | none => cluster
  | some healthCheck =>
    let cluster : v2.Cluster :=
      if h : healthCheck.HasActiveChecks = true then
        let activeChecks :=
          (mesh_proto.HealthCheck_Conf.GetActiveChecks healthCheck.Spec.Conf).get h
        { cluster with
          HealthChecks := cluster.HealthChecks ++
            [{ HealthChecker := .TcpHealthCheck {}
               Interval := activeChecks.Interval
               Timeout := activeChecks.Timeout
               UnhealthyThreshold := some activeChecks.UnhealthyThreshold
               HealthyThreshold := some activeChecks.HealthyThreshold }] }
      else
        cluster
    let cluster : v2.Cluster :=
      if h : healthCheck.HasPassiveChecks = true then
        let passiveChecks :=
          (mesh_proto.HealthCheck_Conf.GetPassiveChecks healthCheck.Spec.Conf).get h
        { cluster with
          OutlierDetection := some
            { Interval := passiveChecks.PenaltyInterval
              Consecutive_5Xx := some passiveChecks.UnhealthyThreshold } }
      else
        cluster
    cluster

/-- Mirrors `CreatePassThroughCluster`. -/
def CreatePassThroughCluster (clusterName : String) : v2.Cluster :=
  { Name := clusterName
    ConnectTimeout := some (ptypes.DurationProto defaultConnectTimeout)
    ClusterDiscoveryType := some (.Type .ORIGINAL_DST)
    LbPolicy := .ORIGINAL_DST_LB }

end envoy

/-! ## Sample inputs -/

namespace sample

/-- A synthesis context whose mesh has mTLS switched on. -/
def ctxMtls : xds_context.Context :=
  { ControlPlane := { SdsLocation := "kuma-control-plane:5677", SdsTlsCert := [45, 45, 66, 69] }
    Mesh := { Resource := { Spec := { Mtls := some { Enabled := true } } } } }

/-- A synthesis context whose mesh has no mTLS section at all. -/
def ctxPlain : xds_context.Context :=
  { ControlPlane := { SdsLocation := "kuma-control-plane:5677", SdsTlsCert := [45, 45, 66, 69] }
    Mesh := { Resource := { Spec := { Mtls := none } } } }

/-- The SDS secret names. -/
def server : SdsServerNames :=
  { MeshCaResource := "mesh_ca", IdentityCertResource := "identity_cert" }

/-- Metadata of a dataplane that was started with a token file. -/
def metadataToken : Option core_xds.DataplaneMetadata :=
  some { DataplaneTokenPath := "/var/secret/token" }

/-- The tags `service: backend, version: v1`. -/
def tags : GoMap String :=
  AList.insert "service" "backend" (AList.insert "version" "v1" ∅)

/-- Two upstream clusters of equal weight. -/
def clusters : List envoy.ClusterInfo :=
  [{ Name := "backend-v1", Weight := 50, Tags := ∅ },
   { Name := "backend-v2", Weight := 50, Tags := ∅ }]

/-- A logging-backend converter that refuses every backend. -/
def convertLoggingBackend : String → String → Unit → Unit → Except String filter_accesslog.AccessLog :=
  fun _ _ _ _ => .error "unsupported logging backend"

/-- An RBAC filter builder that records the listener name and the number of rules. -/
def createRbacFilter : String → List String → envoy_listener.Filter :=
  fun listenerName permissions =>
    { Name := "envoy.filters.network.rbac"
      TypedConfig := .Raw listenerName [permissions.length] }

/-- The inbound interface of the identity test. -/
def inboundBackend : mesh_proto.Dataplane_Networking_Inbound :=
  { Interface := "127.0.0.1:8080:80", Tags := AList.singleton "service" "backend" }

/-- A second inbound interface, of another service. -/
def inboundOther : mesh_proto.Dataplane_Networking_Inbound :=
  { Interface := "127.0.0.1:9090:90", Tags := AList.singleton "service" "other" }

/-- The gateway of the identity test. -/
def gatewayEdge : mesh_proto.Dataplane_Networking_Gateway :=
  { Tags := AList.singleton "service" "edge" }

/-- The dataplane with inbounds of the identity test, with a second inbound and a gateway
added. -/
def dpInbound : core_mesh.DataplaneResource :=
  { Meta := { Mesh := "demo", Name := "dp-1" }
    Spec :=
      { Networking := some
          { Inbound := [inboundBackend, inboundOther], Gateway := some gatewayEdge } } }

/-- The dataplane with a gateway of the identity test. -/
def dpGateway : core_mesh.DataplaneResource :=
  { Meta := { Mesh := "demo", Name := "dp-1" }
    Spec := { Networking := some { Gateway := some gatewayEdge } } }

/-- The dataplane without services of the identity test. -/
def dpEmpty : core_mesh.DataplaneResource :=
  { Meta := { Mesh := "demo", Name := "dp-1" }, Spec := {} }

/-- Active checks: every 10 s, 2 s timeout, unhealthy after 3, healthy after 1. -/
def activeChecks : mesh_proto.HealthCheck_Conf_Active :=
  { Interval := some { Seconds := 10, Nanos := 0 }
    Timeout := some { Seconds := 2, Nanos := 0 }
    UnhealthyThreshold := 3
    HealthyThreshold := 1 }

/-- Passive checks: unhealthy after 5 failures within 30 s. -/
def passiveChecks : mesh_proto.HealthCheck_Conf_Passive :=
  { UnhealthyThreshold := 5, PenaltyInterval := some { Seconds := 30, Nanos := 0 } }

/-- A health-check policy with both kinds of checks. -/
def healthCheckBoth : mesh_core.HealthCheckResource :=
  { Spec := { Conf := some { ActiveChecks := some activeChecks, PassiveChecks := some passiveChecks } } }

/-- A health-check policy whose configuration has neither kind of checks. -/
def healthCheckNeither : mesh_core.HealthCheckResource :=
  { Spec := { Conf := some {} } }

/-- A cluster that already has one HTTP health check and an outlier detection. -/
def clusterChecked : v2.Cluster :=
  { Name := "backend"
    ConnectTimeout := some { Seconds := 5, Nanos := 0 }
    ClusterDiscoveryType := some (.Type .EDS)
    HealthChecks := [{ Timeout := none, Interval := none, UnhealthyThreshold := some 2
                       HealthyThreshold := some 2, HealthChecker := .HttpHealthCheck "/health" }]
    OutlierDetection := some { Consecutive_5Xx := some 7 } }

/-- The access-log entry of the converter `convertToFile`. -/
def fileAccessLog : filter_accesslog.AccessLog :=
  { Name := "envoy.file_access_log", TypeUrl := "envoy.config.accesslog.v2.FileAccessLog", Value := [10, 4] }

/-- A logging-backend converter that accepts every backend. -/
def convertToFile : String → String → Unit → Unit → Except String filter_accesslog.AccessLog :=
  fun _ _ _ _ => .ok fileAccessLog

end sample

/-! ## General lemmas -/

/-- A loop that appends one image per element builds the accumulator followed by the
mapped list. -/
theorem foldl_append_singleton_eq_map {α β : Type} (f : α → β) (xs : List α) (init : List β) :
    xs.foldl (fun acc x => acc ++ [f x]) init = init ++ xs.map f := by
  induction xs generalizing init with
  | nil => simp
  | cons x xs ih => simp [ih]

/-- A range loop that stores one image per entry into a map: afterwards a key that the
loop visited holds the image of its value, and any other key holds what it held before. -/
theorem lookup_rangeOver_insert {V W : Type} (f : V → W)
    (order : List (Sigma fun _ : String => V)) (nd : order.NodupKeys) (acc : GoMap W)
    (key : String) :
    (GoMap.rangeOver order (fun (m : GoMap W) k v => m.insert k (f v)) acc).lookup key
      = ((List.dlookup key order).map f).or (acc.lookup key) := by
  induction order generalizing acc with
  | nil => simp [GoMap.rangeOver]
  | cons e es ih =>
    obtain ⟨k, v⟩ := e
    rw [List.nodupKeys_cons] at nd
    have step : GoMap.rangeOver (⟨k, v⟩ :: es) (fun (m : GoMap W) k v => m.insert k (f v)) acc
        = GoMap.rangeOver es (fun (m : GoMap W) k v => m.insert k (f v)) (acc.insert k (f v)) := rfl
    rw [step, ih nd.2]
    by_cases hk : key = k
    · subst hk
      rw [List.dlookup_cons_eq, List.dlookup_eq_none.mpr nd.1, AList.lookup_insert]
      rfl
    · rw [List.dlookup_cons_ne _ _ hk, AList.lookup_insert_ne hk]

namespace envoy

/-- The call-credential step leaves the target of the channel alone. -/
theorem withCallCredentials_TargetUri (metadata : Option core_xds.DataplaneMetadata)
    (grpc : envoy_core.GrpcService_GoogleGrpc) :
    (withCallCredentials metadata grpc).TargetUri = grpc.TargetUri := by
  unfold withCallCredentials
  split <;> rfl

/-- The call-credential step leaves the stat prefix of the channel alone. -/
theorem withCallCredentials_StatPrefix (metadata : Option core_xds.DataplaneMetadata)
    (grpc : envoy_core.GrpcService_GoogleGrpc) :
    (withCallCredentials metadata grpc).StatPrefix = grpc.StatPrefix := by
  unfold withCallCredentials
  split <;> rfl

/-- The call-credential step leaves the channel credentials alone. -/
theorem withCallCredentials_ChannelCredentials (metadata : Option core_xds.DataplaneMetadata)
    (grpc : envoy_core.GrpcService_GoogleGrpc) :
    (withCallCredentials metadata grpc).ChannelCredentials = grpc.ChannelCredentials := by
  unfold withCallCredentials
  split <;> rfl

/-- The port-binding step leaves the filter chains alone. -/
theorem withVirtual_FilterChains (virtual : Bool) (listener : v2.Listener) :
    (withVirtual virtual listener).FilterChains = listener.FilterChains := by
  cases virtual <;> rfl

/-- The cluster specifier `CreateOutboundListener` writes into its TCP proxy. -/
theorem CreateOutboundListener_eq {Backend Proxy Err : Type}
    (convertLoggingBackend : String → String → Backend → Proxy → Except Err filter_accesslog.AccessLog)
    (ctx : xds_context.Context) (listenerName address : String) (port : Nat)
    (statsName : String) (clusters : List ClusterInfo) (virtual : Bool)
    (sourceService destinationService : String) (proxy : Proxy) :
    CreateOutboundListener convertLoggingBackend ctx listenerName address port statsName
        clusters virtual sourceService destinationService none proxy
      = .ok (withVirtual virtual
          { Name := listenerName
            Address := tcpSocketAddress address port
            FilterChains := [{ Filters := [
              { Name := wellknown.TCPProxy
                TypedConfig := .TcpProxy
                  { StatPrefix := statsName
                    ClusterSpecifier :=
                      if h : clusters.length = 1 then
                        .Cluster (clusters.get ⟨0, by omega⟩).Name
                      else
                        .WeightedClusters { Clusters := clusters.map (fun c => ⟨c.Name, c.Weight⟩) } } }] }] }) := by
  simp only [CreateOutboundListener, foldl_append_singleton_eq_map, List.nil_append]
  rfl

/-! ## Outbound and inbound listeners -/

/-- C1: without a logging backend `CreateOutboundListener` returns a listener whose only
filter is a TCP proxy; given exactly one `ClusterInfo` the proxy uses the single-cluster
specifier with that element's name, and given two or more it uses the weighted-cluster
specifier whose entries are the `(Name, Weight)` pairs of the input, in input order and
of the same length, whatever the weights are. -/
theorem CreateOutboundListener_cluster_specifier {Backend Proxy Err : Type}
    (convertLoggingBackend : String → String → Backend → Proxy → Except Err filter_accesslog.AccessLog)
    (ctx : xds_context.Context) (listenerName address : String) (port : Nat)
    (statsName : String) (clusters : List ClusterInfo) (virtual : Bool)
    (sourceService destinationService : String) (proxy : Proxy) :
    ∃ (listener : v2.Listener) (config : envoy_tcp.TcpProxy),
      CreateOutboundListener convertLoggingBackend ctx listenerName address port statsName
          clusters virtual sourceService destinationService none proxy = .ok listener
      ∧ listener.FilterChains =
          [{ Filters := [{ Name := wellknown.TCPProxy, TypedConfig := .TcpProxy config }] }]
      ∧ (∀ only, clusters = [only] → config.ClusterSpecifier = .Cluster only.Name)
      ∧ (2 ≤ clusters.length →
          ∃ weighted, config.ClusterSpecifier = .WeightedClusters { Clusters := weighted }
            ∧ weighted.length = clusters.length
            ∧ weighted = clusters.map (fun c => ⟨c.Name, c.Weight⟩)
            ∧ ∀ i : Nat, weighted[i]? = clusters[i]?.map
                (fun c => (⟨c.Name, c.Weight⟩ : envoy_tcp.TcpProxy_WeightedCluster_ClusterWeight))) := by
  refine ⟨_, _, CreateOutboundListener_eq convertLoggingBackend ctx listenerName address port
    statsName clusters virtual sourceService destinationService proxy,
    withVirtual_FilterChains _ _, ?_, ?_⟩
  · intro only hc
    subst hc
    rfl
  · intro h2
    have h : ¬ clusters.length = 1 := by omega
    exact ⟨_, by simp only [h, dite_false], by simp, rfl, fun i => by simp⟩

/-- C1 on two clusters of equal weight: the weighted specifier lists both, in order. -/
theorem CreateOutboundListener_cluster_specifier_witness :
    2 ≤ sample.clusters.length
    ∧ ∃ (listener : v2.Listener) (config : envoy_tcp.TcpProxy),
        CreateOutboundListener sample.convertLoggingBackend sample.ctxPlain "outbound"
            "127.0.0.1" 18080 "backend" sample.clusters false "web" "backend" none ()
          = .ok listener
        ∧ listener.FilterChains =
            [{ Filters := [{ Name := wellknown.TCPProxy, TypedConfig := .TcpProxy config }] }]
        ∧ config.ClusterSpecifier = .WeightedClusters
            { Clusters := [{ Name := "backend-v1", Weight := 50 },
                           { Name := "backend-v2", Weight := 50 }] } := by
  obtain ⟨listener, config, hok, hchains, _, hweighted⟩ :=
    CreateOutboundListener_cluster_specifier sample.convertLoggingBackend sample.ctxPlain
      "outbound" "127.0.0.1" 18080 "backend" sample.clusters false "web" "backend" ()
  obtain ⟨weighted, hspec, _, hmap, _⟩ := hweighted (by decide)
  refine ⟨by decide, listener, config, hok, hchains, ?_⟩
  rw [hspec, hmap]
  rfl

/-- C2: `CreateInboundListener` returns exactly one filter chain. With the mesh mTLS flag
off the chain has no TLS context and the TCP proxy to `clusterName` as its only filter;
with the flag on the chain has a TLS context and its filters are the RBAC filter built
from `(listenerName, permissions)` at index 0, followed by that TCP proxy. -/
theorem CreateInboundListener_filter_chain {Permissions : Type}
    (createRbacFilter : String → Permissions → envoy_listener.Filter)
    (server : SdsServerNames) (ctx : xds_context.Context) (listenerName address : String)
    (port : Nat) (clusterName : String) (virtual : Bool) (permissions : Permissions)
    (metadata : Option core_xds.DataplaneMetadata) :
    ∃ chain : envoy_listener.FilterChain,
      (CreateInboundListener createRbacFilter server ctx listenerName address port clusterName
          virtual permissions metadata).FilterChains = [chain]
      ∧ (mtlsEnabled ctx = false →
          chain.TlsContext = none
          ∧ chain.Filters =
              [{ Name := wellknown.TCPProxy
                 TypedConfig := .TcpProxy
                   { StatPrefix := clusterName, ClusterSpecifier := .Cluster clusterName } }])
      ∧ (mtlsEnabled ctx = true →
          chain.TlsContext.isSome = true
          ∧ chain.TlsContext = CreateDownstreamTlsContext server ctx metadata
          ∧ chain.Filters =
              [createRbacFilter listenerName permissions,
               { Name := wellknown.TCPProxy
                 TypedConfig := .TcpProxy
                   { StatPrefix := clusterName, ClusterSpecifier := .Cluster clusterName } }]) := by
  cases h : mtlsEnabled ctx
  · refine ⟨{ TlsContext := none
              Filters := [{ Name := wellknown.TCPProxy
                            TypedConfig := .TcpProxy
                              { StatPrefix := clusterName
                                ClusterSpecifier := .Cluster clusterName } }] }, ?_, ?_, ?_⟩
    · cases virtual <;> simp [CreateInboundListener, withVirtual, CreateDownstreamTlsContext, h]
    · intro _
      exact ⟨rfl, rfl⟩
    · intro hc
      cases hc
  · refine ⟨{ TlsContext := CreateDownstreamTlsContext server ctx metadata
              Filters := [createRbacFilter listenerName permissions,
                          { Name := wellknown.TCPProxy
                            TypedConfig := .TcpProxy
                              { StatPrefix := clusterName
                                ClusterSpecifier := .Cluster clusterName } }] }, ?_, ?_, ?_⟩
    · cases virtual <;> simp [CreateInboundListener, withVirtual, h]
    · intro hc
      cases hc
    · intro _
      exact ⟨by simp [CreateDownstreamTlsContext, h], rfl, rfl⟩

/-- C2 on a mesh with mTLS on: the RBAC filter comes first, the TCP proxy second. -/
theorem CreateInboundListener_filter_chain_witness :
    mtlsEnabled sample.ctxMtls = true
    ∧ ∃ chain : envoy_listener.FilterChain,
        (CreateInboundListener sample.createRbacFilter sample.server sample.ctxMtls "inbound"
            "192.168.0.1" 8080 "localhost:8080" true ["allow-web"] sample.metadataToken).FilterChains
          = [chain]
        ∧ chain.TlsContext.isSome = true
        ∧ chain.Filters =
            [{ Name := "envoy.filters.network.rbac", TypedConfig := .Raw "inbound" [1] },
             { Name := "envoy.tcp_proxy"
               TypedConfig := .TcpProxy
                 { StatPrefix := "localhost:8080", ClusterSpecifier := .Cluster "localhost:8080" } }] := by
  obtain ⟨chain, hchains, _, hon⟩ :=
    CreateInboundListener_filter_chain sample.createRbacFilter sample.server sample.ctxMtls
      "inbound" "192.168.0.1" 8080 "localhost:8080" true ["allow-web"] sample.metadataToken
  obtain ⟨htls, _, hfilters⟩ := hon (by decide)
  exact ⟨by decide, chain, hchains, htls, by rw [hfilters]; rfl⟩

/-! ## TLS contexts -/

/-- C3: `CreateDownstreamTlsContext` returns nil exactly when the mesh mTLS flag is false,
and so does `CreateUpstreamTlsContext`; two calls whose contexts agree on the flag agree on
whether a TLS context is returned, whatever the SDS names, the rest of the context and the
metadata (absent or not) are. -/
theorem tls_context_nil_iff_mtls_disabled (server : SdsServerNames) (ctx : xds_context.Context)
    (metadata : Option core_xds.DataplaneMetadata) :
    (CreateDownstreamTlsContext server ctx metadata = none ↔ mtlsEnabled ctx = false)
    ∧ (CreateUpstreamTlsContext server ctx metadata = none ↔ mtlsEnabled ctx = false)
    ∧ (CreateDownstreamTlsContext server ctx none = none ↔ mtlsEnabled ctx = false)
    ∧ (CreateUpstreamTlsContext server ctx none = none ↔ mtlsEnabled ctx = false)
    ∧ ∀ (server2 : SdsServerNames) (ctx2 : xds_context.Context)
        (metadata2 : Option core_xds.DataplaneMetadata),
        mtlsEnabled ctx2 = mtlsEnabled ctx →
          ((CreateDownstreamTlsContext server2 ctx2 metadata2).isNone
              = (CreateDownstreamTlsContext server ctx metadata).isNone
           ∧ (CreateUpstreamTlsContext server2 ctx2 metadata2).isNone
              = (CreateUpstreamTlsContext server ctx metadata).isNone) := by
  refine ⟨?_, ?_, ?_, ?_, ?_⟩
  · cases h : mtlsEnabled ctx <;> simp [CreateDownstreamTlsContext, h]
  · cases h : mtlsEnabled ctx <;> simp [CreateUpstreamTlsContext, h]
  · cases h : mtlsEnabled ctx <;> simp [CreateDownstreamTlsContext, h]
  · cases h : mtlsEnabled ctx <;> simp [CreateUpstreamTlsContext, h]
  · intro server2 ctx2 metadata2 h2
    cases h : mtlsEnabled ctx <;> rw [h] at h2 <;>
      simp [CreateDownstreamTlsContext, CreateUpstreamTlsContext, h, h2]

/-- C3 on two contexts that differ in everything but the flag being off. -/
theorem tls_context_nil_iff_mtls_disabled_witness :
    mtlsEnabled sample.ctxPlain = false
    ∧ CreateDownstreamTlsContext sample.server sample.ctxPlain sample.metadataToken = none
    ∧ CreateUpstreamTlsContext sample.server sample.ctxPlain none = none :=
  ⟨by decide,
    (tls_context_nil_iff_mtls_disabled sample.server sample.ctxPlain sample.metadataToken).1.mpr
      (by decide),
    (tls_context_nil_iff_mtls_disabled sample.server sample.ctxPlain sample.metadataToken).2.2.2.1.mpr
      (by decide)⟩

/-- C4: the `CommonTlsContext` built by `CreateCommonTlsContext` (for every context, so in
particular with mTLS enabled) references exactly two SDS secrets and no static
certificate: the validation-context slot holds a secret config named
`server.MeshCaResource` and the certificate slot is a list of exactly one secret config named
`server.IdentityCertResource`. Each config has exactly one gRPC service, whose target URI
is `ControlPlane.SdsLocation` and whose channel credentials are SSL credentials with the
root certs given as the inline bytes `ControlPlane.SdsTlsCert`. -/
theorem CreateCommonTlsContext_sds_secrets (server : SdsServerNames)
    (ctx : xds_context.Context) (metadata : Option core_xds.DataplaneMetadata) :
    ∃ (ca cert : envoy_auth.SdsSecretConfig) (caGrpc certGrpc : envoy_core.GrpcService_GoogleGrpc),
      (CreateCommonTlsContext server ctx metadata).ValidationContextType
          = some (.ValidationContextSdsSecretConfig ca)
      ∧ (CreateCommonTlsContext server ctx metadata).TlsCertificateSdsSecretConfigs = [cert]
      ∧ (CreateCommonTlsContext server ctx metadata).TlsCertificates = []
      ∧ ca.Name = server.MeshCaResource
      ∧ cert.Name = server.IdentityCertResource
      ∧ ca.SdsConfig = some (.ApiConfigSource
          { ApiType := .GRPC, GrpcServices := [.GoogleGrpc caGrpc] })
      ∧ cert.SdsConfig = some (.ApiConfigSource
          { ApiType := .GRPC, GrpcServices := [.GoogleGrpc certGrpc] })
      ∧ caGrpc.TargetUri = ctx.ControlPlane.SdsLocation
      ∧ certGrpc.TargetUri = ctx.ControlPlane.SdsLocation
      ∧ caGrpc.ChannelCredentials = some (.SslCredentials
          { RootCerts := some (.InlineBytes ctx.ControlPlane.SdsTlsCert)
            PrivateKey := none, CertChain := none })
      ∧ certGrpc.ChannelCredentials = some (.SslCredentials
          { RootCerts := some (.InlineBytes ctx.ControlPlane.SdsTlsCert)
            PrivateKey := none, CertChain := none }) := by
  refine ⟨sdsSecretConfig ctx server.MeshCaResource metadata,
    sdsSecretConfig ctx server.IdentityCertResource metadata, _, _,
    rfl, rfl, rfl, rfl, rfl, rfl, rfl, ?_, ?_, ?_, ?_⟩
  · rw [withCallCredentials_TargetUri]
  · rw [withCallCredentials_TargetUri]
  · rw [withCallCredentials_ChannelCredentials]
  · rw [withCallCredentials_ChannelCredentials]

/-- C5 fails as stated: taking the mesh-CA secret reference and replacing only its `Name`
by the identity-certificate name does not give the identity-certificate reference, since
the stat prefix of the gRPC service still reads `sds_mesh_ca`. -/
theorem sdsSecretConfig_rename_counterexample :
    ¬ ({ sdsSecretConfig sample.ctxMtls "mesh_ca" none with Name := "identity_cert" }
        = sdsSecretConfig sample.ctxMtls "identity_cert" none) := by
  decide

/-- C5, amended: two secret references built for the same context and metadata differ
only in the secret name and in the stat prefix of the gRPC service, which is `sds_`
followed by the name. Each is one gRPC service, and replacing the stat prefix of the
first service by that of the second yields exactly the second service (same target,
channel credentials, call credentials and credentials factory). -/
theorem sdsSecretConfig_differs_in_name_and_stat_prefix (ctx : xds_context.Context)
    (n1 n2 : String) (metadata : Option core_xds.DataplaneMetadata) :
    ∃ g1 g2 : envoy_core.GrpcService_GoogleGrpc,
      sdsSecretConfig ctx n1 metadata =
          { Name := n1
            SdsConfig := some (.ApiConfigSource
              { ApiType := .GRPC, GrpcServices := [.GoogleGrpc g1] }) }
      ∧ sdsSecretConfig ctx n2 metadata =
          { Name := n2
            SdsConfig := some (.ApiConfigSource
              { ApiType := .GRPC, GrpcServices := [.GoogleGrpc g2] }) }
      ∧ g1.StatPrefix = "sds_" ++ n1
      ∧ g2.StatPrefix = "sds_" ++ n2
      ∧ { g1 with StatPrefix := "sds_" ++ n2 } = g2 := by
  refine ⟨_, _, rfl, rfl, ?_, ?_, ?_⟩
  · rw [withCallCredentials_StatPrefix]
  · rw [withCallCredentials_StatPrefix]
  · unfold withCallCredentials
    split <;> rfl

/-- C6: the gRPC channel built by `sdsSecretConfig` always has the SDS location as target,
`sds_` followed by the name as stat prefix and the inline root cert as SSL channel
credentials. With an empty token path (as with absent metadata) it has no call credentials
and an empty credentials-factory name; with a non-empty path it has exactly one
from-plugin credential named `envoy.grpc_credentials.file_based_metadata`, whose
file-based config reads the secret from the file named by the token path, and the
credentials-factory name is that same string. So it carries call credentials exactly when
the path is non-empty. -/
theorem sdsSecretConfig_call_credentials (ctx : xds_context.Context) (name : String)
    (metadata : Option core_xds.DataplaneMetadata) :
    ∃ g : envoy_core.GrpcService_GoogleGrpc,
      sdsSecretConfig ctx name metadata =
          { Name := name
            SdsConfig := some (.ApiConfigSource
              { ApiType := .GRPC, GrpcServices := [.GoogleGrpc g] }) }
      ∧ g.TargetUri = ctx.ControlPlane.SdsLocation
      ∧ g.StatPrefix = "sds_" ++ name
      ∧ g.ChannelCredentials = some (.SslCredentials
          { RootCerts := some (.InlineBytes ctx.ControlPlane.SdsTlsCert)
            PrivateKey := none, CertChain := none })
      ∧ core_xds.DataplaneMetadata.GetDataplaneTokenPath none = ""
      ∧ (core_xds.DataplaneMetadata.GetDataplaneTokenPath metadata = "" →
          g.CallCredentials = [] ∧ g.CredentialsFactoryName = "")
      ∧ (core_xds.DataplaneMetadata.GetDataplaneTokenPath metadata ≠ "" →
          g.CallCredentials =
            [.FromPlugin
              { Name := "envoy.grpc_credentials.file_based_metadata"
                TypedConfig := .FileBasedMetadataConfig
                  { SecretData := some (.Filename
                      (core_xds.DataplaneMetadata.GetDataplaneTokenPath metadata))
                    HeaderKey := "", HeaderPrefix := "" } }]
          ∧ g.CredentialsFactoryName = "envoy.grpc_credentials.file_based_metadata")
      ∧ (g.CallCredentials ≠ [] ↔
          core_xds.DataplaneMetadata.GetDataplaneTokenPath metadata ≠ "") := by
  refine ⟨_, rfl, withCallCredentials_TargetUri _ _, withCallCredentials_StatPrefix _ _,
    withCallCredentials_ChannelCredentials _ _, rfl, ?_, ?_, ?_⟩
  · intro h
    simp [withCallCredentials, h]
  · intro h
    simp [withCallCredentials, h]
  · by_cases h : core_xds.DataplaneMetadata.GetDataplaneTokenPath metadata = "" <;>
      simp [withCallCredentials, h]

/-- C6 on a dataplane started with a token file. -/
theorem sdsSecretConfig_call_credentials_witness :
    core_xds.DataplaneMetadata.GetDataplaneTokenPath sample.metadataToken ≠ ""
    ∧ ∃ g : envoy_core.GrpcService_GoogleGrpc,
        sdsSecretConfig sample.ctxMtls "mesh_ca" sample.metadataToken =
            { Name := "mesh_ca"
              SdsConfig := some (.ApiConfigSource
                { ApiType := .GRPC, GrpcServices := [.GoogleGrpc g] }) }
        ∧ g.CallCredentials =
            [.FromPlugin
              { Name := "envoy.grpc_credentials.file_based_metadata"
                TypedConfig := .FileBasedMetadataConfig
                  { SecretData := some (.Filename "/var/secret/token") } }]
        ∧ g.CredentialsFactoryName = "envoy.grpc_credentials.file_based_metadata" := by
  obtain ⟨g, hcfg, _, _, _, _, _, hpath, _⟩ :=
    sdsSecretConfig_call_credentials sample.ctxMtls "mesh_ca" sample.metadataToken
  obtain ⟨hcall, hfactory⟩ := hpath (by decide)
  exact ⟨by decide, g, hcfg, by rw [hcall]; rfl, hfactory⟩

/-- C7: with mTLS enabled `CreateDownstreamTlsContext` requires a client certificate, its
`CommonTlsContext` is `CreateCommonTlsContext ctx metadata`, and `CreateUpstreamTlsContext`
carries that same `CommonTlsContext` and nothing else. -/
theorem tls_contexts_share_common_context (server : SdsServerNames)
    (ctx : xds_context.Context) (metadata : Option core_xds.DataplaneMetadata)
    (h : mtlsEnabled ctx = true) :
    CreateDownstreamTlsContext server ctx metadata =
        some { CommonTlsContext := some (CreateCommonTlsContext server ctx metadata)
               RequireClientCertificate := some true
               RequireSni := none }
    ∧ CreateUpstreamTlsContext server ctx metadata =
        some { CommonTlsContext := some (CreateCommonTlsContext server ctx metadata)
               Sni := "", AllowRenegotiation := false, MaxSessionKeys := none }
    ∧ (CreateDownstreamTlsContext server ctx metadata).map (fun d => d.CommonTlsContext)
        = (CreateUpstreamTlsContext server ctx metadata).map (fun u => u.CommonTlsContext) := by
  simp [CreateDownstreamTlsContext, CreateUpstreamTlsContext, h]

/-- C7 at a mesh with mTLS on and a dataplane started with a token file. -/
theorem tls_contexts_share_common_context_witness :
    mtlsEnabled sample.ctxMtls = true
    ∧ (CreateDownstreamTlsContext sample.server sample.ctxMtls sample.metadataToken).map
          (fun d => d.RequireClientCertificate) = some (some true)
    ∧ (CreateDownstreamTlsContext sample.server sample.ctxMtls sample.metadataToken).map
          (fun d => d.CommonTlsContext)
        = (CreateUpstreamTlsContext sample.server sample.ctxMtls sample.metadataToken).map
          (fun u => u.CommonTlsContext) :=
  ⟨by decide, by decide,
    (tls_contexts_share_common_context sample.server sample.ctxMtls sample.metadataToken
      (by decide)).2.2⟩

/-! ## Endpoints -/

/-- What the loop of `CreateLbMetadata` stores under a key, in whatever order the tags
are visited. -/
theorem lbFields_lookup (tags : GoMap String) (order : List (Sigma fun _ : String => String))
    (p : order.Perm tags.entries) (key : String) :
    (lbFields order).lookup key
      = (tags.lookup key).map (fun v => { Kind := .StringValue v }) := by
  have nd : order.NodupKeys := (List.perm_nodupKeys p).mpr tags.nodupKeys
  unfold lbFields
  rw [lookup_rangeOver_insert (fun v => ({ Kind := .StringValue v } : pstruct.Value)) order nd]
  rw [AList.lookup_empty, List.perm_dlookup key nd tags.nodupKeys p]
  cases h : List.dlookup key tags.entries <;> simp [AList.lookup, h]

/-- C9: `CreateLbMetadata` returns nil for the empty (or absent) tag map. For a non-empty
map it returns a metadata block with exactly one namespace, `envoy.lb`, whose field map has
exactly the keys of the tag map, as many entries, and maps each key to the string value
of that tag; this holds in whatever order the tags are ranged over. -/
theorem CreateLbMetadata_spec (tags : GoMap String) :
    CreateLbMetadata ∅ = none
    ∧ (tags.len = 0 → CreateLbMetadata tags = none)
    ∧ (tags.len ≠ 0 →
        ∃ (md : envoy_core.Metadata) (fields : GoMap pstruct.Value),
          CreateLbMetadata tags = some md
          ∧ md.FilterMetadata.keys = ["envoy.lb"]
          ∧ md.FilterMetadata.lookup "envoy.lb" = some { Fields := fields }
          ∧ (∀ key, key ∈ fields.keys ↔ key ∈ tags.keys)
          ∧ fields.len = tags.len
          ∧ (∀ key, fields.lookup key
                = (tags.lookup key).map (fun v => { Kind := .StringValue v }))
          ∧ (∀ order : List (Sigma fun _ : String => String), order.Perm tags.entries →
                ∀ key, (lbFields order).lookup key = fields.lookup key)) := by
  refine ⟨rfl, ?_, ?_⟩
  · intro h
    simp [CreateLbMetadata, h]
  · intro h
    have hlook := lbFields_lookup tags tags.entries (List.Perm.refl _)
    have hkeys : ∀ key, key ∈ (lbFields tags.entries).keys ↔ key ∈ tags.keys := by
      intro key
      rw [← AList.mem_keys, ← AList.mem_keys, ← AList.lookup_isSome, ← AList.lookup_isSome,
        hlook key]
      cases tags.lookup key <;> simp
    refine ⟨{ FilterMetadata := AList.singleton "envoy.lb" { Fields := lbFields tags.entries } },
      lbFields tags.entries, by simp [CreateLbMetadata, h], rfl, ?_, hkeys, ?_, hlook, ?_⟩
    · simp [AList.singleton, AList.lookup]
    · have hp : (lbFields tags.entries).keys.Perm tags.keys :=
        (List.perm_ext_iff_of_nodup (AList.keys_nodup _) (AList.keys_nodup _)).mpr hkeys
      have hl := hp.length_eq
      simpa [GoMap.len, AList.keys, List.keys] using hl
    · intro order p key
      rw [lbFields_lookup tags order p key, hlook key]

/-- C9 on the tags `service: backend, version: v1`, and on no tags. -/
theorem CreateLbMetadata_spec_witness :
    sample.tags.len ≠ 0
    ∧ (CreateLbMetadata sample.tags).isSome = true
    ∧ (∅ : GoMap String).len = 0
    ∧ CreateLbMetadata ∅ = none :=
  ⟨by decide,
    by
      obtain ⟨md, _, hmd, _⟩ := (CreateLbMetadata_spec sample.tags).2.2 (by decide)
      rw [hmd]
      rfl,
    by decide,
    (CreateLbMetadata_spec ∅).2.1 (by decide)⟩

/-- C10: `CreateClusterLoadAssignment` returns an assignment with the given cluster name
and exactly one locality group, whose endpoint list has the length of the input and
whose i-th entry is the TCP socket address of the i-th endpoint's `Target` and `Port`
together with `CreateLbMetadata` of its `Tags`; the input order is kept, and the empty
input gives an empty group. -/
theorem CreateClusterLoadAssignment_spec (clusterName : String)
    (endpoints : List core_xds.Endpoint) :
    ∃ lbEndpoints : List envoy_endpoint.LbEndpoint,
      CreateClusterLoadAssignment clusterName endpoints =
          { ClusterName := clusterName, Endpoints := [{ LbEndpoints := lbEndpoints }] }
      ∧ lbEndpoints.length = endpoints.length
      ∧ ∀ i : Nat, lbEndpoints[i]? = endpoints[i]?.map (fun ep =>
          ({ HostIdentifier := .Endpoint
               { Address := .SocketAddress
                   { Protocol := .TCP, Address := ep.Target, PortSpecifier := .PortValue ep.Port } }
             Metadata := CreateLbMetadata ep.Tags } : envoy_endpoint.LbEndpoint)) := by
  refine ⟨endpoints.map (fun ep =>
      ({ HostIdentifier := .Endpoint { Address := tcpSocketAddress ep.Target ep.Port }
         Metadata := CreateLbMetadata ep.Tags } : envoy_endpoint.LbEndpoint)), ?_, ?_, ?_⟩
  · simp only [CreateClusterLoadAssignment, foldl_append_singleton_eq_map, List.nil_append]
  · simp
  · intro i
    simp [tcpSocketAddress]

end envoy

/-! ## Identity resolution -/

namespace auth_common

/-- C8: identity resolution returns `{Mesh, Service}` with the `service` tag of the first
declared inbound whenever there is one (whatever the gateway and the later inbounds
are), with the gateway's `service` tag when there is no inbound but a gateway, and fails,
with the error `Dataplane has no services associated with it`, exactly when the dataplane
has neither. -/
theorem GetDataplaneIdentity_spec (dataplane : core_mesh.DataplaneResource) :
    (∀ first rest, inbounds dataplane = first :: rest →
        GetDataplaneIdentity dataplane
          = .ok { Mesh := dataplane.Meta.Mesh, Service := first.Tags.index "service" })
    ∧ (∀ gw, inbounds dataplane = [] → gateway dataplane = some gw →
        GetDataplaneIdentity dataplane
          = .ok { Mesh := dataplane.Meta.Mesh, Service := gw.Tags.index "service" })
    ∧ ((∃ err, GetDataplaneIdentity dataplane = .error err)
        ↔ inbounds dataplane = [] ∧ gateway dataplane = none)
    ∧ (GetDataplaneIdentity dataplane = .error "Dataplane has no services associated with it"
        ↔ inbounds dataplane = [] ∧ gateway dataplane = none) := by
  unfold GetDataplaneIdentity
  cases hi : inbounds dataplane with
  | cons first rest => simp
  | nil =>
    cases hg : gateway dataplane with
    | some gw => simp
    | none => simp [NoServiceAssociated]

/-- C8 on the three dataplanes of the identity test (the first with a second inbound and
a gateway added). -/
theorem GetDataplaneIdentity_spec_witness :
    inbounds sample.dpInbound = [sample.inboundBackend, sample.inboundOther]
    ∧ gateway sample.dpInbound = some sample.gatewayEdge
    ∧ GetDataplaneIdentity sample.dpInbound = .ok { Mesh := "demo", Service := "backend" }
    ∧ inbounds sample.dpGateway = []
    ∧ GetDataplaneIdentity sample.dpGateway = .ok { Mesh := "demo", Service := "edge" }
    ∧ GetDataplaneIdentity sample.dpEmpty
        = .error "Dataplane has no services associated with it" :=
  ⟨rfl, rfl,
    (GetDataplaneIdentity_spec sample.dpInbound).1 sample.inboundBackend [sample.inboundOther] rfl,
    rfl,
    (GetDataplaneIdentity_spec sample.dpGateway).2.1 sample.gatewayEdge rfl rfl,
    (GetDataplaneIdentity_spec sample.dpEmpty).2.2.2.mpr ⟨rfl, rfl⟩⟩

end auth_common

/-! ## Clusters -/

namespace envoy

/-- The default connect timeout as a protobuf duration: 5 seconds and no nanoseconds. -/
theorem DurationProto_defaultConnectTimeout :
    ptypes.DurationProto defaultConnectTimeout = { Seconds := 5, Nanos := 0 } := by
  decide

/-- C11: `CreateStaticEndpoint` is `CreateClusterLoadAssignment` on the single endpoint
`{Target: address, Port: port}` without tags; its one locality group has one endpoint,
which carries no metadata. -/
theorem CreateStaticEndpoint_eq_CreateClusterLoadAssignment (clusterName address : String)
    (port : Nat) :
    CreateStaticEndpoint clusterName address port
      = CreateClusterLoadAssignment clusterName [{ Target := address, Port := port, Tags := ∅ }]
    ∧ ∃ lbEndpoint : envoy_endpoint.LbEndpoint,
        (CreateStaticEndpoint clusterName address port).Endpoints
          = [{ LbEndpoints := [lbEndpoint] }]
        ∧ lbEndpoint.Metadata = none :=
  ⟨rfl, _, rfl, rfl⟩

/-- C12: `CreateLocalCluster` returns the cluster named `clusterName` with STATIC discovery,
a connect timeout of 5 seconds and a load assignment for the same name with one locality
group of one endpoint at the TCP socket address `address:port`; every other field is
unset: no TLS context, no health checks, no outlier detection, no EDS config. -/
theorem CreateLocalCluster_spec (clusterName address : String) (port : Nat) :
    CreateLocalCluster clusterName address port =
      { Name := clusterName
        ConnectTimeout := some { Seconds := 5, Nanos := 0 }
        ClusterDiscoveryType := some (.Type .STATIC)
        EdsClusterConfig := none
        LbPolicy := .ROUND_ROBIN
        LoadAssignment := some
          { ClusterName := clusterName
            Endpoints := [{ LbEndpoints := [
              { HostIdentifier := .Endpoint
                  { Address := .SocketAddress
                      { Protocol := .TCP, Address := address, PortSpecifier := .PortValue port } }
                Metadata := none }] }] }
        HealthChecks := []
        TlsContext := none
        OutlierDetection := none } := by
  simp only [CreateLocalCluster, DurationProto_defaultConnectTimeout]
  rfl

/-- C13: `CreateEdsCluster` returns the cluster named `clusterName` with EDS discovery over
the aggregated discovery source, a connect timeout of 5 seconds and no load assignment;
its TLS context is `CreateUpstreamTlsContext ctx metadata`, which is present exactly when
the mesh mTLS flag is true. -/
theorem CreateEdsCluster_spec (server : SdsServerNames) (ctx : xds_context.Context)
    (clusterName : String) (metadata : Option core_xds.DataplaneMetadata) :
    CreateEdsCluster server ctx clusterName metadata =
      { Name := clusterName
        ConnectTimeout := some { Seconds := 5, Nanos := 0 }
        ClusterDiscoveryType := some (.Type .EDS)
        EdsClusterConfig := some { EdsConfig := some .Ads, ServiceName := "" }
        LbPolicy := .ROUND_ROBIN
        LoadAssignment := none
        HealthChecks := []
        TlsContext := CreateUpstreamTlsContext server ctx metadata
        OutlierDetection := none }
    ∧ ((CreateEdsCluster server ctx clusterName metadata).TlsContext.isSome = true
        ↔ mtlsEnabled ctx = true) := by
  refine ⟨?_, ?_⟩
  · simp only [CreateEdsCluster, DurationProto_defaultConnectTimeout]
  · cases h : mtlsEnabled ctx <;> simp [CreateEdsCluster, CreateUpstreamTlsContext, h]

/-- C14: `CreatePassThroughCluster` returns the cluster named `clusterName` with discovery
type ORIGINAL_DST, load-balancing policy ORIGINAL_DST_LB and a connect timeout of 5
seconds; it has no load assignment, no EDS config, no TLS context (and no health checks
or outlier detection). -/
theorem CreatePassThroughCluster_spec (clusterName : String) :
    CreatePassThroughCluster clusterName =
      { Name := clusterName
        ConnectTimeout := some { Seconds := 5, Nanos := 0 }
        ClusterDiscoveryType := some (.Type .ORIGINAL_DST)
        EdsClusterConfig := none
        LbPolicy := .ORIGINAL_DST_LB
        LoadAssignment := none
        HealthChecks := []
        TlsContext := none
        OutlierDetection := none } := by
  simp only [CreatePassThroughCluster, DurationProto_defaultConnectTimeout]

/-- What `ClusterWithHealthChecks` does for a policy, by the checks the policy carries. -/
theorem ClusterWithHealthChecks_eq (cluster : v2.Cluster)
    (healthCheck : mesh_core.HealthCheckResource) :
    ClusterWithHealthChecks cluster (some healthCheck) =
      { cluster with
        HealthChecks :=
          match mesh_proto.HealthCheck_Conf.GetActiveChecks healthCheck.Spec.Conf with
          | some activeChecks =>
            cluster.HealthChecks ++
              [{ HealthChecker := .TcpHealthCheck { Send := none, Receive := [] }
                 Interval := activeChecks.Interval
                 Timeout := activeChecks.Timeout
                 UnhealthyThreshold := some activeChecks.UnhealthyThreshold
                 HealthyThreshold := some activeChecks.HealthyThreshold }]
          | none => cluster.HealthChecks
        OutlierDetection :=
          match mesh_proto.HealthCheck_Conf.GetPassiveChecks healthCheck.Spec.Conf with
          | some passiveChecks =>
            some { Interval := passiveChecks.PenaltyInterval
                   Consecutive_5Xx := some passiveChecks.UnhealthyThreshold
                   BaseEjectionTime := none
                   MaxEjectionPercent := none }
          | none => cluster.OutlierDetection } := by
  cases ha : mesh_proto.HealthCheck_Conf.GetActiveChecks healthCheck.Spec.Conf <;>
    cases hp : mesh_proto.HealthCheck_Conf.GetPassiveChecks healthCheck.Spec.Conf <;>
    simp [ClusterWithHealthChecks, mesh_core.HealthCheckResource.HasActiveChecks,
      mesh_core.HealthCheckResource.HasPassiveChecks, ha, hp]

/-- C15: `ClusterWithHealthChecks cluster nil` is the cluster it was given, with every
field as it was, and so is the result for a policy that has neither active nor passive
checks. -/
theorem ClusterWithHealthChecks_noop (cluster : v2.Cluster) :
    ClusterWithHealthChecks cluster none = cluster
    ∧ ∀ healthCheck : mesh_core.HealthCheckResource,
        healthCheck.HasActiveChecks = false → healthCheck.HasPassiveChecks = false →
          ClusterWithHealthChecks cluster (some healthCheck) = cluster := by
  refine ⟨rfl, ?_⟩
  intro healthCheck ha hp
  simp [ClusterWithHealthChecks, ha, hp]

/-- C15 on a cluster that already has a health check and an outlier detection. -/
theorem ClusterWithHealthChecks_noop_witness :
    sample.healthCheckNeither.HasActiveChecks = false
    ∧ sample.healthCheckNeither.HasPassiveChecks = false
    ∧ ClusterWithHealthChecks sample.clusterChecked none = sample.clusterChecked
    ∧ ClusterWithHealthChecks sample.clusterChecked (some sample.healthCheckNeither)
        = sample.clusterChecked :=
  ⟨by decide, by decide, (ClusterWithHealthChecks_noop sample.clusterChecked).1,
    (ClusterWithHealthChecks_noop sample.clusterChecked).2 sample.healthCheckNeither
      (by decide) (by decide)⟩

/-- C16: for a non-nil policy `ClusterWithHealthChecks` treats the two kinds of checks
independently. The health checks are the input list followed by exactly one TCP health
check with the policy's `Interval`, `Timeout`, `UnhealthyThreshold` and
`HealthyThreshold` when active checks are present, and the input list otherwise. The
outlier detection is `{Interval = PenaltyInterval, Consecutive_5Xx = UnhealthyThreshold}`
when passive checks are present, and the input's otherwise. Every other field of the
cluster is as it was. -/
theorem ClusterWithHealthChecks_independent (cluster : v2.Cluster)
    (healthCheck : mesh_core.HealthCheckResource) :
    (∀ activeChecks,
        mesh_proto.HealthCheck_Conf.GetActiveChecks healthCheck.Spec.Conf = some activeChecks →
        healthCheck.HasActiveChecks = true
        ∧ (ClusterWithHealthChecks cluster (some healthCheck)).HealthChecks =
            cluster.HealthChecks ++
              [{ HealthChecker := .TcpHealthCheck { Send := none, Receive := [] }
                 Interval := activeChecks.Interval
                 Timeout := activeChecks.Timeout
                 UnhealthyThreshold := some activeChecks.UnhealthyThreshold
                 HealthyThreshold := some activeChecks.HealthyThreshold }])
    ∧ (healthCheck.HasActiveChecks = false →
        (ClusterWithHealthChecks cluster (some healthCheck)).HealthChecks = cluster.HealthChecks)
    ∧ (∀ passiveChecks,
        mesh_proto.HealthCheck_Conf.GetPassiveChecks healthCheck.Spec.Conf = some passiveChecks →
        healthCheck.HasPassiveChecks = true
        ∧ (ClusterWithHealthChecks cluster (some healthCheck)).OutlierDetection =
            some { Interval := passiveChecks.PenaltyInterval
                   Consecutive_5Xx := some passiveChecks.UnhealthyThreshold
                   BaseEjectionTime := none
                   MaxEjectionPercent := none })
    ∧ (healthCheck.HasPassiveChecks = false →
        (ClusterWithHealthChecks cluster (some healthCheck)).OutlierDetection
          = cluster.OutlierDetection)
    ∧ ClusterWithHealthChecks cluster (some healthCheck) =
        { cluster with
          HealthChecks := (ClusterWithHealthChecks cluster (some healthCheck)).HealthChecks
          OutlierDetection :=
            (ClusterWithHealthChecks cluster (some healthCheck)).OutlierDetection } := by
  rw [ClusterWithHealthChecks_eq]
  refine ⟨?_, ?_, ?_, ?_, rfl⟩
  · intro activeChecks ha
    simp [mesh_core.HealthCheckResource.HasActiveChecks, ha]
  · intro ha
    simp only [mesh_core.HealthCheckResource.HasActiveChecks] at ha
    cases hg : mesh_proto.HealthCheck_Conf.GetActiveChecks healthCheck.Spec.Conf with
    | none => rfl
    | some a => simp [hg] at ha
  · intro passiveChecks hp
    simp [mesh_core.HealthCheckResource.HasPassiveChecks, hp]
  · intro hp
    simp only [mesh_core.HealthCheckResource.HasPassiveChecks] at hp
    cases hg : mesh_proto.HealthCheck_Conf.GetPassiveChecks healthCheck.Spec.Conf with
    | none => rfl
    | some a => simp [hg] at hp

/-- C16 on a policy with both kinds of checks and a cluster that already has a health
check and an outlier detection: the TCP check is appended and the detection replaced. -/
theorem ClusterWithHealthChecks_independent_witness :
    mesh_proto.HealthCheck_Conf.GetActiveChecks sample.healthCheckBoth.Spec.Conf
      = some sample.activeChecks
    ∧ mesh_proto.HealthCheck_Conf.GetPassiveChecks sample.healthCheckBoth.Spec.Conf
      = some sample.passiveChecks
    ∧ (ClusterWithHealthChecks sample.clusterChecked (some sample.healthCheckBoth)).HealthChecks
      = [{ Timeout := none, Interval := none, UnhealthyThreshold := some 2
           HealthyThreshold := some 2, HealthChecker := .HttpHealthCheck "/health" },
         { Timeout := some { Seconds := 2, Nanos := 0 }
           Interval := some { Seconds := 10, Nanos := 0 }
           UnhealthyThreshold := some 3
           HealthyThreshold := some 1
           HealthChecker := .TcpHealthCheck {} }]
    ∧ (ClusterWithHealthChecks sample.clusterChecked (some sample.healthCheckBoth)).OutlierDetection
      = some { Interval := some { Seconds := 30, Nanos := 0 }, Consecutive_5Xx := some 5 } :=
  ⟨rfl, rfl,
    ((ClusterWithHealthChecks_independent sample.clusterChecked sample.healthCheckBoth).1
      sample.activeChecks rfl).2,
    ((ClusterWithHealthChecks_independent sample.clusterChecked sample.healthCheckBoth).2.2.1
      sample.passiveChecks rfl).2⟩

/-! ## Listeners: failure, port binding, metrics and catch-all -/

/-- A backend whose conversion fails makes `CreateOutboundListener` fail with that error. -/
theorem CreateOutboundListener_of_convert_error {Backend Proxy Err : Type}
    (convertLoggingBackend : String → String → Backend → Proxy → Except Err filter_accesslog.AccessLog)
    (ctx : xds_context.Context) (listenerName address : String) (port : Nat)
    (statsName : String) (clusters : List ClusterInfo) (virtual : Bool)
    (sourceService destinationService : String) (b : Backend) (proxy : Proxy) (err : Err)
    (h : convertLoggingBackend sourceService destinationService b proxy = .error err) :
    CreateOutboundListener convertLoggingBackend ctx listenerName address port statsName
        clusters virtual sourceService destinationService (some b) proxy = .error err := by
  simp only [CreateOutboundListener, h]
  rfl

/-- A backend whose conversion succeeds gives the listener whose TCP proxy logs to the
converted entry. -/
theorem CreateOutboundListener_of_convert_ok {Backend Proxy Err : Type}
    (convertLoggingBackend : String → String → Backend → Proxy → Except Err filter_accesslog.AccessLog)
    (ctx : xds_context.Context) (listenerName address : String) (port : Nat)
    (statsName : String) (clusters : List ClusterInfo) (virtual : Bool)
    (sourceService destinationService : String) (b : Backend) (proxy : Proxy)
    (accessLog : filter_accesslog.AccessLog)
    (h : convertLoggingBackend sourceService destinationService b proxy = .ok accessLog) :
    CreateOutboundListener convertLoggingBackend ctx listenerName address port statsName
        clusters virtual sourceService destinationService (some b) proxy
      = .ok (withVirtual virtual
          { Name := listenerName
            Address := tcpSocketAddress address port
            FilterChains := [{ Filters := [
              { Name := wellknown.TCPProxy
                TypedConfig := .TcpProxy
                  { StatPrefix := statsName
                    AccessLog := [accessLog]
                    ClusterSpecifier :=
                      if h : clusters.length = 1 then
                        .Cluster (clusters.get ⟨0, by omega⟩).Name
                      else
                        .WeightedClusters { Clusters := clusters.map (fun c => ⟨c.Name, c.Weight⟩) } } }] }] }) := by
  simp only [CreateOutboundListener, h, foldl_append_singleton_eq_map, List.nil_append]
  rfl

/-- C17: `CreateOutboundListener` fails exactly when a logging backend is supplied and its
conversion fails, and then with the conversion's error. Otherwise it returns a listener
whose TCP proxy has an empty access-log list when no backend is supplied, and the list
of exactly the converted entry when one is. -/
theorem CreateOutboundListener_fails_iff {Backend Proxy Err : Type}
    (convertLoggingBackend : String → String → Backend → Proxy → Except Err filter_accesslog.AccessLog)
    (ctx : xds_context.Context) (listenerName address : String) (port : Nat)
    (statsName : String) (clusters : List ClusterInfo) (virtual : Bool)
    (sourceService destinationService : String) (backend : Option Backend) (proxy : Proxy) :
    (∀ err,
        CreateOutboundListener convertLoggingBackend ctx listenerName address port statsName
            clusters virtual sourceService destinationService backend proxy = .error err
        ↔ ∃ b, backend = some b
            ∧ convertLoggingBackend sourceService destinationService b proxy = .error err)
    ∧ (backend = none →
        ∃ (listener : v2.Listener) (config : envoy_tcp.TcpProxy),
          CreateOutboundListener convertLoggingBackend ctx listenerName address port statsName
              clusters virtual sourceService destinationService backend proxy = .ok listener
          ∧ listener.FilterChains =
              [{ Filters := [{ Name := wellknown.TCPProxy, TypedConfig := .TcpProxy config }] }]
          ∧ config.AccessLog = [])
    ∧ (∀ b accessLog, backend = some b →
        convertLoggingBackend sourceService destinationService b proxy = .ok accessLog →
        ∃ (listener : v2.Listener) (config : envoy_tcp.TcpProxy),
          CreateOutboundListener convertLoggingBackend ctx listenerName address port statsName
              clusters virtual sourceService destinationService backend proxy = .ok listener
          ∧ listener.FilterChains =
              [{ Filters := [{ Name := wellknown.TCPProxy, TypedConfig := .TcpProxy config }] }]
          ∧ config.AccessLog = [accessLog]) := by
  refine ⟨?_, ?_, ?_⟩
  · intro err
    cases backend with
    | none =>
      rw [CreateOutboundListener_eq]
      simp
    | some b =>
      cases hc : convertLoggingBackend sourceService destinationService b proxy with
      | error e =>
        rw [CreateOutboundListener_of_convert_error convertLoggingBackend ctx listenerName
          address port statsName clusters virtual sourceService destinationService b proxy e hc]
        simp [hc]
      | ok accessLog =>
        rw [CreateOutboundListener_of_convert_ok convertLoggingBackend ctx listenerName
          address port statsName clusters virtual sourceService destinationService b proxy
          accessLog hc]
        simp [hc]
  · intro hb
    subst hb
    exact ⟨_, _, CreateOutboundListener_eq convertLoggingBackend ctx listenerName address port
      statsName clusters virtual sourceService destinationService proxy,
      withVirtual_FilterChains _ _, rfl⟩
  · intro b accessLog hb hc
    subst hb
    exact ⟨_, _, CreateOutboundListener_of_convert_ok convertLoggingBackend ctx listenerName
      address port statsName clusters virtual sourceService destinationService b proxy
      accessLog hc, withVirtual_FilterChains _ _, rfl⟩

/-- C17 on a backend that is refused and on one that is accepted. -/
theorem CreateOutboundListener_fails_iff_witness :
    CreateOutboundListener sample.convertLoggingBackend sample.ctxPlain "outbound" "127.0.0.1"
        18080 "backend" sample.clusters false "web" "backend" (some ()) ()
      = .error "unsupported logging backend"
    ∧ ∃ (listener : v2.Listener) (config : envoy_tcp.TcpProxy),
        CreateOutboundListener sample.convertToFile sample.ctxPlain "outbound" "127.0.0.1"
            18080 "backend" sample.clusters false "web" "backend" (some ()) () = .ok listener
        ∧ listener.FilterChains =
            [{ Filters := [{ Name := wellknown.TCPProxy, TypedConfig := .TcpProxy config }] }]
        ∧ config.AccessLog = [sample.fileAccessLog] :=
  ⟨((CreateOutboundListener_fails_iff sample.convertLoggingBackend sample.ctxPlain "outbound"
      "127.0.0.1" 18080 "backend" sample.clusters false "web" "backend" (some ()) ()).1
      "unsupported logging backend").mpr ⟨(), rfl, rfl⟩,
    (CreateOutboundListener_fails_iff sample.convertToFile sample.ctxPlain "outbound"
      "127.0.0.1" 18080 "backend" sample.clusters false "web" "backend" (some ()) ()).2.2
      () sample.fileAccessLog rfl rfl⟩

/-- C18: in `CreateOutboundListener`, `CreateInboundListener` and `CreatePrometheusListener`
the `virtual` flag decides the bind-to-port setting and nothing else. With the other
arguments fixed, the listener built with `virtual = false` has no such setting, and the
one built with `virtual = true` is that same listener (name, address, filter chains) with
the setting present and false. For the outbound listener, which can fail, the flag has no
influence on whether it fails or on the error. -/
theorem virtual_only_sets_bind_to_port {Backend Proxy Err Permissions : Type}
    (convertLoggingBackend : String → String → Backend → Proxy → Except Err filter_accesslog.AccessLog)
    (createRbacFilter : String → Permissions → envoy_listener.Filter)
    (server : SdsServerNames) (ctx : xds_context.Context) (listenerName address : String)
    (port : Nat) (statsName : String) (clusters : List ClusterInfo)
    (sourceService destinationService : String) (backend : Option Backend) (proxy : Proxy)
    (clusterName : String) (permissions : Permissions)
    (metadata : Option core_xds.DataplaneMetadata) (path : String) :
    ((∀ err,
        CreateOutboundListener convertLoggingBackend ctx listenerName address port statsName
            clusters true sourceService destinationService backend proxy = .error err
        ↔ CreateOutboundListener convertLoggingBackend ctx listenerName address port statsName
            clusters false sourceService destinationService backend proxy = .error err)
      ∧ ∀ listener,
        CreateOutboundListener convertLoggingBackend ctx listenerName address port statsName
            clusters false sourceService destinationService backend proxy = .ok listener →
        listener.DeprecatedV1 = none
        ∧ CreateOutboundListener convertLoggingBackend ctx listenerName address port statsName
            clusters true sourceService destinationService backend proxy
          = .ok { listener with DeprecatedV1 := some { BindToPort := some false } })
    ∧ ((CreateInboundListener createRbacFilter server ctx listenerName address port clusterName
          false permissions metadata).DeprecatedV1 = none
      ∧ CreateInboundListener createRbacFilter server ctx listenerName address port clusterName
          true permissions metadata
        = { CreateInboundListener createRbacFilter server ctx listenerName address port
              clusterName false permissions metadata with
            DeprecatedV1 := some { BindToPort := some false } })
    ∧ ((CreatePrometheusListener ctx listenerName address port path clusterName false
          metadata).DeprecatedV1 = none
      ∧ CreatePrometheusListener ctx listenerName address port path clusterName true metadata
        = { CreatePrometheusListener ctx listenerName address port path clusterName false
              metadata with
            DeprecatedV1 := some { BindToPort := some false } }) := by
  refine ⟨?_, ⟨rfl, rfl⟩, ⟨rfl, rfl⟩⟩
  cases backend with
  | none =>
    simp only [CreateOutboundListener_eq]
    refine ⟨fun err => by simp, ?_⟩
    intro listener hl
    cases hl
    exact ⟨rfl, rfl⟩
  | some b =>
    cases hc : convertLoggingBackend sourceService destinationService b proxy with
    | error e =>
      simp only [CreateOutboundListener_of_convert_error convertLoggingBackend ctx listenerName
        address port statsName clusters _ sourceService destinationService b proxy e hc]
      refine ⟨fun err => by simp, ?_⟩
      intro listener hl
      cases hl
    | ok accessLog =>
      simp only [CreateOutboundListener_of_convert_ok convertLoggingBackend ctx listenerName
        address port statsName clusters _ sourceService destinationService b proxy accessLog hc]
      refine ⟨fun err => by simp, ?_⟩
      intro listener hl
      cases hl
      exact ⟨rfl, rfl⟩

/-- C18 on an outbound listener with an accepted logging backend. -/
theorem virtual_only_sets_bind_to_port_witness :
    ∃ listener : v2.Listener,
      CreateOutboundListener sample.convertToFile sample.ctxPlain "outbound" "127.0.0.1" 18080
          "backend" sample.clusters false "web" "backend" (some ()) () = .ok listener
      ∧ listener.DeprecatedV1 = none
      ∧ CreateOutboundListener sample.convertToFile sample.ctxPlain "outbound" "127.0.0.1" 18080
          "backend" sample.clusters true "web" "backend" (some ()) ()
        = .ok { listener with DeprecatedV1 := some { BindToPort := some false } } :=
  ⟨_, rfl,
    (virtual_only_sets_bind_to_port sample.convertToFile sample.createRbacFilter sample.server
      sample.ctxPlain "outbound" "127.0.0.1" 18080 "backend" sample.clusters "web" "backend"
      (some ()) () "localhost:8080" ["allow-web"] none "/metrics").1.2 _ rfl⟩

/-- C19: `CreatePrometheusListener` returns a listener with exactly one filter chain,
without TLS context, holding exactly one filter: an HTTP connection manager whose route
configuration has exactly one virtual host, for every domain (`*`), with exactly one
route, which matches `path` as a prefix, forwards to `clusterName` and rewrites the
prefix to `/stats/prometheus`. The result does not depend on the context (so not on the
mesh mTLS flag) or on the metadata. -/
theorem CreatePrometheusListener_spec (ctx : xds_context.Context)
    (listenerName address : String) (port : Nat) (path clusterName : String) (virtual : Bool)
    (metadata : Option core_xds.DataplaneMetadata) :
    (∃ hcm : envoy_hcm.HttpConnectionManager,
      (CreatePrometheusListener ctx listenerName address port path clusterName virtual
          metadata).FilterChains =
        [{ TlsContext := none
           Filters := [{ Name := wellknown.HTTPConnectionManager
                         TypedConfig := .HttpConnectionManager hcm }] }]
      ∧ hcm.RouteSpecifier = .RouteConfig
          { VirtualHosts := [
              { Name := "envoy_admin"
                Domains := ["*"]
                Routes := [
                  { Match := { PathSpecifier := .Prefix path }
                    Action := .Route
                      { ClusterSpecifier := .Cluster clusterName
                        PrefixRewrite := "/stats/prometheus" } }] }] })
    ∧ ∀ (ctx2 : xds_context.Context) (metadata2 : Option core_xds.DataplaneMetadata),
        CreatePrometheusListener ctx2 listenerName address port path clusterName virtual metadata2
          = CreatePrometheusListener ctx listenerName address port path clusterName virtual
              metadata := by
  refine ⟨⟨{ StatPrefix := listenerName
             CodecType := .AUTO
             HttpFilters := [{ Name := wellknown.Router }]
             RouteSpecifier := .RouteConfig
               { VirtualHosts := [
                   { Name := "envoy_admin"
                     Domains := ["*"]
                     Routes := [
                       { Match := { PathSpecifier := .Prefix path }
                         Action := .Route
                           { ClusterSpecifier := .Cluster clusterName
                             PrefixRewrite := "/stats/prometheus" } }] }] } }, ?_, rfl⟩,
    fun _ _ => rfl⟩
  cases virtual <;> rfl

/-- C20: `CreateCatchAllListener` returns the listener on the TCP socket address
`address:port` with `UseOriginalDst = true` and exactly one filter chain, without TLS
context, holding exactly one filter: the TCP proxy whose single-cluster specifier names
`clusterName`. It has no bind-to-port override, and does not depend on the context (so
not on the mesh mTLS flag). -/
theorem CreateCatchAllListener_spec (ctx : xds_context.Context)
    (listenerName address : String) (port : Nat) (clusterName : String) :
    CreateCatchAllListener ctx listenerName address port clusterName =
      { Name := listenerName
        Address := .SocketAddress
          { Protocol := .TCP, Address := address, PortSpecifier := .PortValue port }
        FilterChains :=
          [{ TlsContext := none
             Filters := [{ Name := wellknown.TCPProxy
                           TypedConfig := .TcpProxy
                             { StatPrefix := clusterName
                               ClusterSpecifier := .Cluster clusterName
                               AccessLog := [] } }] }]
        UseOriginalDst := some true
        DeprecatedV1 := none }
    ∧ ∀ ctx2 : xds_context.Context,
        CreateCatchAllListener ctx2 listenerName address port clusterName
          = CreateCatchAllListener ctx listenerName address port clusterName :=
  ⟨rfl, fun _ => rfl⟩

end envoy

/-! ## The cluster list of an outbound listener -/

namespace envoy

/-- Whenever `CreateOutboundListener` returns a listener, its only filter is a TCP proxy
with the cluster specifier chosen by `len(clusters) == 1`. -/
theorem CreateOutboundListener_ok_cluster_specifier {Backend Proxy Err : Type}
    (convertLoggingBackend : String → String → Backend → Proxy → Except Err filter_accesslog.AccessLog)
    (ctx : xds_context.Context) (listenerName address : String) (port : Nat)
    (statsName : String) (clusters : List ClusterInfo) (virtual : Bool)
    (sourceService destinationService : String) (backend : Option Backend) (proxy : Proxy)
    (listener : v2.Listener)
    (hl : CreateOutboundListener convertLoggingBackend ctx listenerName address port statsName
        clusters virtual sourceService destinationService backend proxy = .ok listener) :
    ∃ config : envoy_tcp.TcpProxy,
      listener.FilterChains =
          [{ Filters := [{ Name := wellknown.TCPProxy, TypedConfig := .TcpProxy config }] }]
      ∧ config.ClusterSpecifier =
          if h : clusters.length = 1 then
            .Cluster (clusters.get ⟨0, by omega⟩).Name
          else
            .WeightedClusters { Clusters := clusters.map (fun c => ⟨c.Name, c.Weight⟩) } := by
  cases backend with
  | none =>
    rw [CreateOutboundListener_eq] at hl
    cases hl
    exact ⟨_, withVirtual_FilterChains _ _, rfl⟩
  | some b =>
    cases hc : convertLoggingBackend sourceService destinationService b proxy with
    | error e =>
      rw [CreateOutboundListener_of_convert_error convertLoggingBackend ctx listenerName
        address port statsName clusters virtual sourceService destinationService b proxy e hc]
        at hl
      cases hl
    | ok accessLog =>
      rw [CreateOutboundListener_of_convert_ok convertLoggingBackend ctx listenerName
        address port statsName clusters virtual sourceService destinationService b proxy
        accessLog hc] at hl
      cases hl
      exact ⟨_, withVirtual_FilterChains _ _, rfl⟩

/-- C21: the empty cluster list is never a cause of failure of `CreateOutboundListener`:
given the empty list it returns a listener whenever no logging backend is supplied or
the conversion of the supplied one succeeds, and it fails only with the error of a
failed conversion. Every listener it returns for the empty list has a TCP proxy with the
weighted-cluster specifier over the empty cluster list, not the single-cluster
specifier. In general, for every cluster list, a listener it returns uses the
single-cluster specifier if and only if the list has exactly one element. -/
theorem CreateOutboundListener_empty_clusters {Backend Proxy Err : Type}
    (convertLoggingBackend : String → String → Backend → Proxy → Except Err filter_accesslog.AccessLog)
    (ctx : xds_context.Context) (listenerName address : String) (port : Nat)
    (statsName : String) (clusters : List ClusterInfo) (virtual : Bool)
    (sourceService destinationService : String) (backend : Option Backend) (proxy : Proxy) :
    ((backend = none
        ∨ ∃ b accessLog, backend = some b
            ∧ convertLoggingBackend sourceService destinationService b proxy = .ok accessLog) →
      ∃ listener : v2.Listener,
        CreateOutboundListener convertLoggingBackend ctx listenerName address port statsName
          [] virtual sourceService destinationService backend proxy = .ok listener)
    ∧ (∀ listener : v2.Listener,
        CreateOutboundListener convertLoggingBackend ctx listenerName address port statsName
          [] virtual sourceService destinationService backend proxy = .ok listener →
        ∃ config : envoy_tcp.TcpProxy,
          listener.FilterChains =
              [{ Filters := [{ Name := wellknown.TCPProxy, TypedConfig := .TcpProxy config }] }]
          ∧ config.ClusterSpecifier = .WeightedClusters { Clusters := [] }
          ∧ ∀ name, config.ClusterSpecifier ≠ .Cluster name)
    ∧ (∀ listener : v2.Listener,
        CreateOutboundListener convertLoggingBackend ctx listenerName address port statsName
          clusters virtual sourceService destinationService backend proxy = .ok listener →
        ∃ config : envoy_tcp.TcpProxy,
          listener.FilterChains =
              [{ Filters := [{ Name := wellknown.TCPProxy, TypedConfig := .TcpProxy config }] }]
          ∧ ((∃ name, config.ClusterSpecifier = .Cluster name) ↔ clusters.length = 1))
    ∧ (∀ err,
        CreateOutboundListener convertLoggingBackend ctx listenerName address port statsName
            [] virtual sourceService destinationService backend proxy = .error err
        ↔ ∃ b, backend = some b
            ∧ convertLoggingBackend sourceService destinationService b proxy = .error err) := by
  refine ⟨?_, ?_, ?_, ?_⟩
  · rintro (hb | ⟨b, accessLog, hb, hc⟩)
    · subst hb
      exact ⟨_, CreateOutboundListener_eq convertLoggingBackend ctx listenerName address port
        statsName [] virtual sourceService destinationService proxy⟩
    · subst hb
      exact ⟨_, CreateOutboundListener_of_convert_ok convertLoggingBackend ctx listenerName
        address port statsName [] virtual sourceService destinationService b proxy accessLog hc⟩
  · intro listener hl
    obtain ⟨config, hchains, hspec⟩ :=
      CreateOutboundListener_ok_cluster_specifier convertLoggingBackend ctx listenerName address
        port statsName [] virtual sourceService destinationService backend proxy listener hl
    have hw : config.ClusterSpecifier = .WeightedClusters { Clusters := [] } := by
      rw [hspec]
      rfl
    refine ⟨config, hchains, hw, ?_⟩
    intro name hname
    rw [hw] at hname
    cases hname
  · intro listener hl
    obtain ⟨config, hchains, hspec⟩ :=
      CreateOutboundListener_ok_cluster_specifier convertLoggingBackend ctx listenerName address
        port statsName clusters virtual sourceService destinationService backend proxy listener hl
    refine ⟨config, hchains, ?_⟩
    rw [hspec]
    by_cases h : clusters.length = 1
    · simp [h]
    · simp [h]
  · intro err
    cases backend with
    | none =>
      rw [CreateOutboundListener_eq]
      simp
    | some b =>
      cases hc : convertLoggingBackend sourceService destinationService b proxy with
      | error e =>
        rw [CreateOutboundListener_of_convert_error convertLoggingBackend ctx listenerName
          address port statsName [] virtual sourceService destinationService b proxy e hc]
        simp [hc]
      | ok accessLog =>
        rw [CreateOutboundListener_of_convert_ok convertLoggingBackend ctx listenerName
          address port statsName [] virtual sourceService destinationService b proxy
          accessLog hc]
        simp [hc]

/-- C21 on the empty cluster list without a logging backend: a listener is returned, and
its TCP proxy has the weighted-cluster specifier over no clusters. -/
theorem CreateOutboundListener_empty_clusters_witness :
    ∃ (listener : v2.Listener) (config : envoy_tcp.TcpProxy),
      CreateOutboundListener sample.convertLoggingBackend sample.ctxPlain "outbound" "127.0.0.1"
          18080 "backend" [] false "web" "backend" none () = .ok listener
      ∧ listener.FilterChains =
          [{ Filters := [{ Name := wellknown.TCPProxy, TypedConfig := .TcpProxy config }] }]
      ∧ config.ClusterSpecifier = .WeightedClusters { Clusters := [] } := by
  obtain ⟨hok, hempty, _⟩ :=
    CreateOutboundListener_empty_clusters sample.convertLoggingBackend sample.ctxPlain
      "outbound" "127.0.0.1" 18080 "backend" sample.clusters false "web" "backend" none ()
  obtain ⟨listener, hl⟩ := hok (Or.inl rfl)
  obtain ⟨config, hchains, hspec, _⟩ := hempty listener hl
  exact ⟨listener, config, hl, hchains, hspec⟩

/-! ## Applying a health-check policy twice -/

/-- C22: `ClusterWithHealthChecks` is not idempotent for a policy with active checks: applied
twice with the same policy it yields the input's health checks followed by the same TCP
check twice, a list two entries longer than the input's and one longer than after one
application. The outlier detection after two applications is the one after one
application, and for a policy without active checks (so for one with passive checks
only) the second application changes nothing. -/
theorem ClusterWithHealthChecks_twice (cluster : v2.Cluster)
    (healthCheck : mesh_core.HealthCheckResource) :
    (∀ activeChecks,
        mesh_proto.HealthCheck_Conf.GetActiveChecks healthCheck.Spec.Conf = some activeChecks →
        healthCheck.HasActiveChecks = true
        ∧ (ClusterWithHealthChecks (ClusterWithHealthChecks cluster (some healthCheck))
              (some healthCheck)).HealthChecks =
            cluster.HealthChecks ++
              [{ HealthChecker := .TcpHealthCheck { Send := none, Receive := [] }
                 Interval := activeChecks.Interval
                 Timeout := activeChecks.Timeout
                 UnhealthyThreshold := some activeChecks.UnhealthyThreshold
                 HealthyThreshold := some activeChecks.HealthyThreshold },
               { HealthChecker := .TcpHealthCheck { Send := none, Receive := [] }
                 Interval := activeChecks.Interval
                 Timeout := activeChecks.Timeout
                 UnhealthyThreshold := some activeChecks.UnhealthyThreshold
                 HealthyThreshold := some activeChecks.HealthyThreshold }])
    ∧ (healthCheck.HasActiveChecks = true →
        (ClusterWithHealthChecks (ClusterWithHealthChecks cluster (some healthCheck))
            (some healthCheck)).HealthChecks.length = cluster.HealthChecks.length + 2
        ∧ ClusterWithHealthChecks (ClusterWithHealthChecks cluster (some healthCheck))
            (some healthCheck) ≠ ClusterWithHealthChecks cluster (some healthCheck))
    ∧ (ClusterWithHealthChecks (ClusterWithHealthChecks cluster (some healthCheck))
          (some healthCheck)).OutlierDetection
        = (ClusterWithHealthChecks cluster (some healthCheck)).OutlierDetection
    ∧ (healthCheck.HasActiveChecks = false →
        ClusterWithHealthChecks (ClusterWithHealthChecks cluster (some healthCheck))
            (some healthCheck) = ClusterWithHealthChecks cluster (some healthCheck)) := by
  have hod : (ClusterWithHealthChecks (ClusterWithHealthChecks cluster (some healthCheck))
        (some healthCheck)).OutlierDetection
      = (ClusterWithHealthChecks cluster (some healthCheck)).OutlierDetection := by
    simp only [ClusterWithHealthChecks_eq]
    cases mesh_proto.HealthCheck_Conf.GetPassiveChecks healthCheck.Spec.Conf <;> rfl
  refine ⟨?_, ?_, hod, ?_⟩
  · intro activeChecks ha
    simp [ClusterWithHealthChecks_eq, mesh_core.HealthCheckResource.HasActiveChecks, ha]
  · intro h
    simp only [mesh_core.HealthCheckResource.HasActiveChecks] at h
    cases ha : mesh_proto.HealthCheck_Conf.GetActiveChecks healthCheck.Spec.Conf with
    | none => simp [ha] at h
    | some a =>
      have hlen : (ClusterWithHealthChecks (ClusterWithHealthChecks cluster (some healthCheck))
          (some healthCheck)).HealthChecks.length = cluster.HealthChecks.length + 2 := by
        simp [ClusterWithHealthChecks_eq, ha]
      have hone : (ClusterWithHealthChecks cluster (some healthCheck)).HealthChecks.length
          = cluster.HealthChecks.length + 1 := by
        simp [ClusterWithHealthChecks_eq, ha]
      refine ⟨hlen, ?_⟩
      intro heq
      rw [heq, hone] at hlen
      omega
  · intro h
    simp only [mesh_core.HealthCheckResource.HasActiveChecks] at h
    cases ha : mesh_proto.HealthCheck_Conf.GetActiveChecks healthCheck.Spec.Conf with
    | some a => simp [ha] at h
    | none =>
      simp only [ClusterWithHealthChecks_eq, ha]
      cases mesh_proto.HealthCheck_Conf.GetPassiveChecks healthCheck.Spec.Conf <;> rfl

/-- C22 on a policy with both kinds of checks and a cluster that already has one health
check: after two applications there are three, the last two being the same TCP check,
and the outlier detection is the one set by the first application. -/
theorem ClusterWithHealthChecks_twice_witness :
    sample.healthCheckBoth.HasActiveChecks = true
    ∧ (ClusterWithHealthChecks
          (ClusterWithHealthChecks sample.clusterChecked (some sample.healthCheckBoth))
          (some sample.healthCheckBoth)).HealthChecks.length = 3
    ∧ ClusterWithHealthChecks
          (ClusterWithHealthChecks sample.clusterChecked (some sample.healthCheckBoth))
          (some sample.healthCheckBoth)
        ≠ ClusterWithHealthChecks sample.clusterChecked (some sample.healthCheckBoth)
    ∧ (ClusterWithHealthChecks
          (ClusterWithHealthChecks sample.clusterChecked (some sample.healthCheckBoth))
          (some sample.healthCheckBoth)).OutlierDetection
        = some { Interval := some { Seconds := 30, Nanos := 0 }, Consecutive_5Xx := some 5 } :=
  ⟨rfl,
    ((ClusterWithHealthChecks_twice sample.clusterChecked sample.healthCheckBoth).2.1 rfl).1,
    ((ClusterWithHealthChecks_twice sample.clusterChecked sample.healthCheckBoth).2.1 rfl).2,
    (ClusterWithHealthChecks_twice sample.clusterChecked sample.healthCheckBoth).2.2.1.trans rfl⟩

end envoy
